import Mathlib

/-!
Shallow embedding of the measurement orchestration engine of the
wifi-heatmapper repository (`src/lib/iperfRunner.ts`): the survey
orchestrator `runSurveyTests`, the bandwidth test runner `runSingleTest`,
the iperf output normalizer `extractIperfData`, and the progress /
cancellation channel they publish to.

Numeric JSON values are modelled as `ℚ` (the code only passes them
through and compares against `0`); integer counters as `ℤ`/`ℕ`.
JavaScript's `Math.round` is `round` (both are `⌊x + 1/2⌋`).
Effects are made explicit: the SSE channel becomes a trace of events,
the subprocess and platform-adapter calls become values supplied by an
`Env` record, and the shared cancellation flag becomes the index of the
first cancellation checkpoint at which it reads true.
-/

namespace WifiHeatmapper

/-- One entry of a Wi-Fi snapshot (`WifiResults.SSIDs` element): the
fields of the scanned network that `iperfRunner.ts` reads or copies. -/
structure WifiNetwork where
  ssid : String
  bssid : String
  band : ℕ
  channel : ℕ
  channelWidth : ℕ
  security : String
  signalStrength : ℤ
  rssi : ℤ
  currentSSID : Bool
deriving Repr, DecidableEq

/-- A Wi-Fi snapshot: the list of detected networks. -/
structure WifiResults where
  SSIDs : List WifiNetwork
deriving Repr, DecidableEq

/-- Test protocol of one bandwidth sub-test (`type TestType`). -/
inductive TestType | TCP | UDP
deriving Repr, DecidableEq

/-- Test direction of one bandwidth sub-test (`type TestDirection`). -/
inductive TestDirection | Up | Down
deriving Repr, DecidableEq

/-- Result of one bandwidth sub-test (`IperfTestProperty`). -/
structure IperfTestProperty where
  bitsPerSecond : Option ℚ
  retransmits : Option ℤ
  jitterMs : Option ℚ
  lostPackets : Option ℤ
  packetsReceived : Option ℤ
  signalStrength : ℤ
deriving Repr, DecidableEq

/-- The four direction/protocol results (`IperfResults`). -/
structure IperfResults where
  tcpDownload : IperfTestProperty
  tcpUpload : IperfTestProperty
  udpDownload : IperfTestProperty
  udpUpload : IperfTestProperty
deriving Repr, DecidableEq

/-- The all-null "not run" sub-test result that `runSingleTest` and
`extractIperfData` return on failure. -/
def nullTestProperty : IperfTestProperty :=
  { bitsPerSecond := none
    retransmits := none
    jitterMs := none
    lostPackets := none
    packetsReceived := none
    signalStrength := 0 }

/-- Modelled from the spec: `getDefaultIperfResults` lives in
`src/lib/utils.ts`, which is not among the provided sources; the spec's
data model says a full result "aggregates four such results ... each
defaulting to an all-null 'not run' value". -/
def getDefaultIperfResults : IperfResults :=
  { tcpDownload := nullTestProperty
    tcpUpload := nullTestProperty
    udpDownload := nullTestProperty
    udpUpload := nullTestProperty }

/-- The `end.sum` section of an iperf JSON payload. All inner fields are
optional at runtime. -/
structure IperfSum where
  bits_per_second : Option ℚ
  jitter_ms : Option ℚ
  lost_packets : Option ℤ
  packets : Option ℤ
  lost_percent : Option ℚ
  retransmits : Option ℤ
deriving Repr, DecidableEq

/-- The `end.sum_received` section (newer iperf). The TypeScript type
declares `bits_per_second` as present, but the code guards the access
with `?? null`, so we keep it optional as a JSON field can be absent. -/
structure IperfSumReceived where
  bits_per_second : Option ℚ
deriving Repr, DecidableEq

/-- The `end.sum_sent` section (newer iperf). -/
structure IperfSumSent where
  retransmits : Option ℤ
deriving Repr, DecidableEq

/-- The `streams[].udp` entries of the payload (declared in the input
type of `extractIperfData` but never read by it). -/
structure IperfStreamUdp where
  jitter_ms : Option ℚ
  lost_packets : Option ℤ
  packets : Option ℤ
deriving Repr, DecidableEq

/-- The `end` completion section of an iperf JSON payload. -/
structure IperfEnd where
  sum_received : Option IperfSumReceived
  sum_sent : Option IperfSumSent
  sum : Option IperfSum
  streams : List IperfStreamUdp
deriving Repr, DecidableEq

/-- A raw iperf JSON payload as consumed by `extractIperfData`: the
optional top-level `end` section (named `end_` since `end` is a Lean
keyword) and the optional top-level `error` string. -/
structure IperfRaw where
  end_ : Option IperfEnd
  error : Option String
  version : Option String
deriving Repr, DecidableEq

/-- Output normalizer `extractIperfData(result, isUdp)` translated
line by line from the source: missing `end` yields the all-null result;
otherwise the newer schema is detected by the presence of `sum_received`,
throughput and retransmits are selected per schema and protocol, a zero
or absent throughput is normalized to null, and the UDP-only metrics are
read from `sum` only when `isUdp`. -/
def extractIperfData (result : IperfRaw) (isUdp : Bool) : IperfTestProperty :=
  match result.end_ with
  | none => nullTestProperty
  | some e =>
    let isNewVersion := e.sum_received.isSome
    let bps0 : Option ℚ :=
      if isNewVersion then
        if isUdp then e.sum.bind (fun s => s.bits_per_second)
        else e.sum_received.bind (fun s => s.bits_per_second)
      else e.sum.bind (fun s => s.bits_per_second)
    let bitsPerSecond : Option ℚ :=
      if bps0 = none ∨ bps0 = some 0 then none else bps0
    let retransmits : Option ℤ :=
      if isNewVersion then e.sum_sent.bind (fun s => s.retransmits)
      else e.sum.bind (fun s => s.retransmits)
    { bitsPerSecond := bitsPerSecond
      retransmits := retransmits
      jitterMs := if isUdp then e.sum.bind (fun s => s.jitter_ms) else none
      lostPackets := if isUdp then e.sum.bind (fun s => s.lost_packets) else none
      packetsReceived := if isUdp then e.sum.bind (fun s => s.packets) else none
      signalStrength := 0 }

/-- Observable behaviour of `runSingleTest` once the subprocess outcome
is fixed: `.error` stands for a subprocess execution failure or
unparsable (non-JSON) output, both of which land in the `catch` block
that returns the all-null result; `.ok` is the JSON-parsed payload
handed to `extractIperfData`. The function is total: no exception
escapes to the caller. -/
def runSingleTest (outcome : Except String IperfRaw) (isUdp : Bool) :
    IperfTestProperty :=
  match outcome with
  | .error _ => nullTestProperty
  | .ok raw => extractIperfData raw isUdp

/-- The iperf3 command line built by `runSingleTest` (host:port split,
`-R` for download, `-u -b 0` for UDP, `-J` for JSON output). -/
def buildIperfCommand (server : String) (duration : ℕ)
    (testDir : TestDirection) (testType : TestType) : String :=
  let parts := server.splitOn ":"
  let host := if parts.length ≥ 2 then parts[0]! else server
  let port := if parts.length ≥ 2 then parts[1]! else ""
  let portFlag := if port ≠ "" then "-p " ++ port ++ " " else ""
  let revFlag := if testDir = TestDirection.Down then "-R " else ""
  let udpFlag := if testType = TestType.UDP then "-u -b 0 " else ""
  "iperf3 -c " ++ host ++ " " ++ portFlag ++ "-t " ++ toString duration
    ++ " " ++ revFlag ++ udpFlag ++ "-J"

/-- `arrayAverage`: `Math.round` of the mean, `0` for the empty list. -/
def arrayAverage (arr : List ℤ) : ℤ :=
  if arr = [] then 0
  else round ((arr.sum : ℚ) / (arr.length : ℚ))

/-- `validateWifiDataConsistency`: the source returns `true` when the
four identity fields agree and (falsy) `undefined` otherwise; the call
site only tests truthiness, so we model the result as a `Bool`. -/
def validateWifiDataConsistency (wifiDataBefore wifiDataAfter : WifiNetwork) :
    Bool :=
  wifiDataBefore.bssid = wifiDataAfter.bssid ∧
  wifiDataBefore.ssid = wifiDataAfter.ssid ∧
  wifiDataBefore.band = wifiDataAfter.band ∧
  wifiDataBefore.channel = wifiDataAfter.channel

/-- Caller-supplied configuration (`PartialHeatmapSettings`): the fields
`runSurveyTests` reads. -/
structure PartialHeatmapSettings where
  iperfServerAdrs : String
  testDuration : ℕ
  iperfTcpEnabled : Bool
  iperfUdpEnabled : Bool
deriving Repr, DecidableEq

/-- The module-level mutable `displayStates` record. The `strength`
display string only ever holds `"-"` or the decimal rendering of an
integer, so it is represented by `Option ℤ` (`none` renders `"-"`)
and rendered when a message is built. -/
structure DS where
  type : String
  header : String
  strength : Option ℤ
  tcp : String
  udp : String
  tcpEnabled : Bool
  udpEnabled : Bool
  progress : ℤ
deriving Repr, DecidableEq

/-- The `initialStates` literal that each run is reset to. -/
def initialStates : DS :=
  { type := "update"
    header := "Measurement beginning"
    strength := none
    tcp := "-/- Mbps"
    udp := "-/- Mbps"
    tcpEnabled := true
    udpEnabled := true
    progress := 0 }

/-- One message published on the SSE progress channel
(`SSEMessageType`). The error message literal in the `catch` of
`runSurveyTests` omits the enabled flags and progress, so those three
fields are optional. -/
structure SSEMessage where
  type : String
  header : String
  status : String
  tcpEnabled : Option Bool
  udpEnabled : Option Bool
  progress : Option ℤ
deriving Repr, DecidableEq

/-- Rendering of the `strength` display value as in `displayStates`. -/
def renderStrength : Option ℤ → String
  | none => "-"
  | some v => toString v

/-- `getUpdatedMessage()`: combine the display-state values into the
message to send, appending `%` to a numeric strength and joining the
status lines of the enabled tests with newlines. -/
def getUpdatedMessage (ds : DS) : SSEMessage :=
  let strength0 := renderStrength ds.strength
  let strength := if strength0 ≠ "-" then strength0 ++ "%" else strength0
  let statusLines :=
    ["Signal strength: " ++ strength]
      ++ (if ds.tcpEnabled then ["TCP: " ++ ds.tcp] else [])
      ++ (if ds.udpEnabled then ["UDP: " ++ ds.udp] else [])
  { type := ds.type
    header := ds.header
    status := String.intercalate "\n" statusLines
    tcpEnabled := some ds.tcpEnabled
    udpEnabled := some ds.udpEnabled
    progress := some ds.progress }

/-- Observable events of a run: a message published on the SSE channel,
or the invocation of one bandwidth sub-test subprocess. -/
inductive Event
  | sse (m : SSEMessage)
  | subtest (dir : TestDirection) (typ : TestType)
deriving Repr, DecidableEq

/-- The cancellation flag, modelled by the index of the first
`checkForCancel` checkpoint at which `getCancelFlag()` reads true
(`none`: never during this run). The flag is monotone within a run, so
checkpoint `i` observes it set iff the first true index is `≤ i`. -/
def isCancelled (cancelFrom : Option ℕ) (checkpoint : ℕ) : Bool :=
  match cancelFrom with
  | none => false
  | some j => j ≤ checkpoint

instance {ε α : Type} [DecidableEq ε] [DecidableEq α] :
    DecidableEq (Except ε α) := fun x y =>
  match x, y with
  | .ok a, .ok b =>
    if h : a = b then .isTrue (by rw [h]) else .isFalse (by simp [h])
  | .error a, .error b =>
    if h : a = b then .isTrue (by rw [h]) else .isFalse (by simp [h])
  | .ok _, .error _ => .isFalse (by simp)
  | .error _, .ok _ => .isFalse (by simp)

/-- The environment of one run: the values returned by the platform
adapter and the iperf subprocess, the cancellation schedule, and the
elapsed-time instants (ms) at which the per-test progress interval
fires. `tcpDown`, …: `.error` models a failed or unparsable subprocess
invocation, `.ok` the JSON-parsed payload. -/
structure Env where
  preflight : String
  checkIperf : String
  scan : WifiResults
  wifi1 : WifiResults
  wifi2 : WifiResults
  wifi3 : WifiResults
  cancelFrom : Option ℕ
  tcpDown : Except String IperfRaw
  tcpUp : Except String IperfRaw
  udpDown : Except String IperfRaw
  udpUp : Except String IperfRaw
  ticksTcpDown : List ℕ
  ticksTcpUp : List ℕ
  ticksUdpDown : List ℕ
  ticksUdpUp : List ℕ
deriving Repr, DecidableEq

/-- Percentage reported by one firing of the progress interval in
`runSingleTest`: `Math.min(Math.round(elapsed / testDurationMs * 100), 99)`. -/
def tickPercent (durationMs elapsed : ℕ) : ℤ :=
  min (round ((elapsed : ℚ) / (durationMs : ℚ) * 100)) 99

/-- Progress value written by the orchestrator's progress callback:
`Math.round(completedTests * progressPerTest + percent / 100 * progressPerTest)`. -/
def tickProgress (progressPerTest : ℚ) (completedTests : ℕ) (percent : ℤ) : ℤ :=
  round ((completedTests : ℚ) * progressPerTest
    + (percent : ℚ) / 100 * progressPerTest)

/-- One `runSingleTest` call as observed by the orchestrator: the
subprocess is invoked, the progress interval fires once per recorded
elapsed instant, and the `finally` block reports a final `100`; each
callback stores the mapped progress into the display state and publishes
a message. Returns the events, the display state after the final
callback, and the normalized result. -/
def subTestRun (ds : DS) (progressPerTest : ℚ) (completedTests : ℕ)
    (durationMs : ℕ) (ticks : List ℕ) (outcome : Except String IperfRaw)
    (isUdp : Bool) (dir : TestDirection) (typ : TestType) :
    List Event × DS × IperfTestProperty :=
  let percents := ticks.map (tickPercent durationMs) ++ [100]
  let msgs := percents.map (fun p =>
    Event.sse (getUpdatedMessage
      { ds with progress := tickProgress progressPerTest completedTests p }))
  (Event.subtest dir typ :: msgs,
    { ds with progress := tickProgress progressPerTest completedTests 100 },
    runSingleTest outcome isUdp)

/-- JavaScript's `String.prototype.includes` for a non-empty pattern:
`splitOn` yields more than one piece iff the pattern occurs. -/
def jsIncludes (s pat : String) : Bool := decide (1 < (s.splitOn pat).length)

/-- Error message thrown by `checkForCancel`. -/
def cancelledError : String := "cancelled"

/-- Error message thrown when the consistency validation fails. -/
def wifiChangedError : String :=
  "Wifi configuration changed between scans! Cancelling instead of giving wrong results."

/-- Error raised when `SSIDs[0]` of a `getWifi` snapshot is read but the
list is empty (a TypeError on an undefined element). -/
def undefinedStrengthRead : String :=
  "TypeError: reading signalStrength of undefined"

/-- Error raised when `thisSSID[0].ssid` is read but no scanned entry is
marked as the current network (a TypeError on an undefined element). -/
def undefinedSsidRead : String := "TypeError: reading ssid of undefined"

/-- Outcome of one iteration of the retry-loop body of
`runSurveyTests`: the events it published, the display state, the
bandwidth results object as mutated so far, the new Wi-Fi entry when it
was assigned, and the message of the thrown error when the body threw. -/
structure AttemptOut where
  events : List Event
  ds : DS
  iperf : IperfResults
  wifi : Option WifiNetwork
  err : Option String
deriving Repr, DecidableEq

/-- One iteration of the `while (attempts < maxRetries)` body of
`runSurveyTests`, from the header update through consistency validation,
with the five cancellation checkpoints numbered 0–4 in source order.
Every early exit carries the events published so far and the thrown
error's message. -/
def attempt (toMbps : Option ℚ → String) (percentageToRssi : ℤ → ℤ)
    (s : PartialHeatmapSettings) (env : Env) (performIperfTest : Bool)
    (noIperfTestReason : String) (iperf0 : IperfResults) (ds1 : DS)
    (ssidName : String) : AttemptOut :=
  let newHeader :=
    if !(jsIncludes ssidName "redacted") then
      "Measuring Wi-Fi (" ++ ssidName ++ ")"
    else "Measuring Wi-Fi"
  let ds := { ds1 with header := newHeader }
  match env.wifi1.SSIDs.head? with
  | none => ⟨[], ds, iperf0, none, some undefinedStrengthRead⟩
  | some w1 =>
    let wifiStrengths := [w1.signalStrength]
    let ds := { ds with strength := some (arrayAverage wifiStrengths) }
    if isCancelled env.cancelFrom 0 then ⟨[], ds, iperf0, none, some cancelledError⟩
    else
    let evs := [Event.sse (getUpdatedMessage ds)]
    let tcpEnabled := performIperfTest && s.iperfTcpEnabled
    let udpEnabled := performIperfTest && s.iperfUdpEnabled
    let totalTests := (if tcpEnabled then 2 else 0) + (if udpEnabled then 2 else 0)
    let progressPerTest : ℚ := if totalTests > 0 then 100 / (totalTests : ℚ) else 0
    let durationMs := s.testDuration * 1000
    let tcpPhase :=
      if tcpEnabled then
        let ds := { ds with tcp := "Testing..." }
        let r1 := subTestRun ds progressPerTest 0 durationMs env.ticksTcpDown
          env.tcpDown false TestDirection.Down TestType.TCP
        let ds := r1.2.1
        let iperf := { iperf0 with tcpDownload := r1.2.2 }
        let mbDown := toMbps iperf.tcpDownload.bitsPerSecond
        let ds := { ds with tcp := mbDown ++ " / ... Mbps" }
        let e2 := [Event.sse (getUpdatedMessage ds)]
        let r2 := subTestRun ds progressPerTest 1 durationMs env.ticksTcpUp
          env.tcpUp false TestDirection.Up TestType.TCP
        let ds := r2.2.1
        let iperf := { iperf with tcpUpload := r2.2.2 }
        let mbUp := toMbps iperf.tcpUpload.bitsPerSecond
        let ds := { ds with tcp := mbDown ++ " / " ++ mbUp ++ " Mbps" }
        (r1.1 ++ e2 ++ r2.1, ds, iperf, 2)
      else
        let ds := if ds.tcpEnabled then { ds with tcp := noIperfTestReason } else ds
        (([] : List Event), ds, iperf0, 0)
    let evsT := tcpPhase.1
    let dsT := tcpPhase.2.1
    let iperfT := tcpPhase.2.2.1
    let completedT := tcpPhase.2.2.2
    if isCancelled env.cancelFrom 1 then
      ⟨evs ++ evsT, dsT, iperfT, none, some cancelledError⟩
    else
    let evs := evs ++ evsT ++ [Event.sse (getUpdatedMessage dsT)]
    match env.wifi2.SSIDs.head? with
    | none => ⟨evs, dsT, iperfT, none, some undefinedStrengthRead⟩
    | some w2 =>
      let wifiStrengths := wifiStrengths ++ [w2.signalStrength]
      let ds := { dsT with strength := some (arrayAverage wifiStrengths) }
      if isCancelled env.cancelFrom 2 then
        ⟨evs, ds, iperfT, none, some cancelledError⟩
      else
      let evs := evs ++ [Event.sse (getUpdatedMessage ds)]
      let udpPhase :=
        if udpEnabled then
          let ds := { ds with udp := "Testing..." }
          let r1 := subTestRun ds progressPerTest completedT durationMs
            env.ticksUdpDown env.udpDown true TestDirection.Down TestType.UDP
          let ds := r1.2.1
          let iperf := { iperfT with udpDownload := r1.2.2 }
          let mbDown := toMbps iperf.udpDownload.bitsPerSecond
          let ds := { ds with udp := mbDown ++ " / ... Mbps" }
          let e2 := [Event.sse (getUpdatedMessage ds)]
          let r2 := subTestRun ds progressPerTest (completedT + 1) durationMs
            env.ticksUdpUp env.udpUp true TestDirection.Up TestType.UDP
          let ds := r2.2.1
          let iperf := { iperf with udpUpload := r2.2.2 }
          let mbUp := toMbps iperf.udpUpload.bitsPerSecond
          let ds := { ds with udp := mbDown ++ " / " ++ mbUp ++ " Mbps" }
          (r1.1 ++ e2 ++ r2.1, ds, iperf)
        else
          let ds := if ds.udpEnabled then { ds with udp := noIperfTestReason } else ds
          (([] : List Event), ds, iperfT)
      let evsU := udpPhase.1
      let dsU0 := udpPhase.2.1
      let iperfU := udpPhase.2.2
      let dsU := { dsU0 with progress := 100 }
      if isCancelled env.cancelFrom 3 then
        ⟨evs ++ evsU, dsU, iperfU, none, some cancelledError⟩
      else
      let evs := evs ++ evsU ++ [Event.sse (getUpdatedMessage dsU)]
      match env.wifi3.SSIDs.head? with
      | none => ⟨evs, dsU, iperfU, none, some undefinedStrengthRead⟩
      | some w3 =>
        let wifiStrengths := wifiStrengths ++ [w3.signalStrength]
        let ds := { dsU with strength := some (arrayAverage wifiStrengths) }
        if isCancelled env.cancelFrom 4 then
          ⟨evs, ds, iperfU, none, some cancelledError⟩
        else
        let ds := { ds with type := "done", header := "Measurement complete" }
        let evs := evs ++ [Event.sse (getUpdatedMessage ds)]
        if !(validateWifiDataConsistency w1 w3) then
          ⟨evs, ds, iperfU, none, some wifiChangedError⟩
        else
          let strength := ds.strength.getD 0
          let wifi := { w1 with signalStrength := strength
                                rssi := percentageToRssi strength }
          ⟨evs, ds, iperfU, some wifi, none⟩

/-- The return triple of `runSurveyTests`. -/
structure SurveyReturn where
  iperfData : Option IperfResults
  wifiData : Option WifiNetwork
  status : String
deriving Repr, DecidableEq

/-- A completed call of `runSurveyTests`: the events published on the
progress channel and either the returned triple or the message of the
error re-raised to the caller. -/
structure SurveyOut where
  events : List Event
  result : Except String SurveyReturn
deriving Repr, DecidableEq

/-- The error message published by the top-level `catch` of
`runSurveyTests` before re-raising. -/
def errorDoneMessage : SSEMessage :=
  { type := "done"
    header := "Error"
    status := "Error taking measurements"
    tcpEnabled := none
    udpEnabled := none
    progress := none }

/-- Survey orchestrator `runSurveyTests(settings)`. `toMbps` and
`percentageToRssi` are the display/conversion helpers imported from
`src/lib/utils.ts` (not among the provided sources) and are passed as
parameters; no claim depends on their bodies. Since `maxRetries = 1`,
the retry loop executes its body exactly once: a thrown `"cancelled"`
returns the cancelled triple from inside the catch, any other thrown
error is logged and swallowed, and control falls through to the final
`return { iperfData: newIperfData!, wifiData: newWifiData!, status: "" }`. -/
def runSurveyTests (toMbps : Option ℚ → String) (percentageToRssi : ℤ → ℤ)
    (s : PartialHeatmapSettings) (env : Env) : SurveyOut :=
  if env.preflight ≠ "" then ⟨[], .ok ⟨none, none, env.preflight⟩⟩
  else
    let pf :=
      if s.iperfServerAdrs = "localhost" then (false, "Not performed")
      else if env.checkIperf ≠ "" then (false, env.checkIperf)
      else (true, "")
    let performIperfTest := pf.1
    let noIperfTestReason := pf.2
    let newIperfData := getDefaultIperfResults
    let ds0 := { initialStates with
                 tcpEnabled := performIperfTest && s.iperfTcpEnabled
                 udpEnabled := performIperfTest && s.iperfUdpEnabled }
    let ev0 := Event.sse (getUpdatedMessage ds0)
    let ds1 := { ds0 with header := "Measurement in progress..." }
    match (env.scan.SSIDs.filter (fun item => item.currentSSID)).head? with
    | none => ⟨[ev0, Event.sse errorDoneMessage], .error undefinedSsidRead⟩
    | some cur =>
      let a := attempt toMbps percentageToRssi s env performIperfTest
        noIperfTestReason newIperfData ds1 cur.ssid
      match a.err with
      | some e =>
        if e = cancelledError then
          ⟨ev0 :: a.events, .ok ⟨none, none, "test was cancelled"⟩⟩
        else ⟨ev0 :: a.events, .ok ⟨some a.iperf, a.wifi, ""⟩⟩
      | none => ⟨ev0 :: a.events, .ok ⟨some a.iperf, a.wifi, ""⟩⟩

/-- Number of `done`-typed messages in a trace. -/
def doneCount (evs : List Event) : ℕ :=
  evs.countP (fun e =>
    match e with
    | .sse m => m.type == "done"
    | _ => false)

/-- The progress values carried by the published messages of a trace. -/
def progressValues (evs : List Event) : List ℤ :=
  evs.filterMap (fun e =>
    match e with
    | .sse m => m.progress
    | _ => none)

/-! ## Specification-side definitions for the normalizer claims -/

/-- Stated from the claim: the throughput figure selected by schema and
protocol — with the newer-schema split section present, TCP reads the
received sub-section and UDP reads the combined summary; with it absent,
both protocols read the combined summary. -/
def specThroughputSource (e : IperfEnd) (isUdp : Bool) : Option ℚ :=
  if e.sum_received.isSome then
    if isUdp then e.sum.bind (fun s => s.bits_per_second)
    else e.sum_received.bind (fun s => s.bits_per_second)
  else e.sum.bind (fun s => s.bits_per_second)

/-- Stated from the claim: retransmits come from the sent sub-section
when the split section is present and from the combined summary
otherwise, regardless of protocol. -/
def specRetransmitsSource (e : IperfEnd) : Option ℤ :=
  if e.sum_received.isSome then e.sum_sent.bind (fun s => s.retransmits)
  else e.sum.bind (fun s => s.retransmits)

/-- Normalization of a throughput figure: zero and absent collapse to
null. -/
def zeroToNull (o : Option ℚ) : Option ℚ :=
  if o = none ∨ o = some 0 then none else o

/-- The completion section with the selected throughput figure made
absent, leaving schema detection untouched. -/
def eraseSelectedThroughputEnd (e : IperfEnd) (isUdp : Bool) : IperfEnd :=
  if e.sum_received.isSome then
    if isUdp then
      { e with sum := e.sum.map (fun s => { s with bits_per_second := none }) }
    else { e with sum_received := some { bits_per_second := none } }
  else
    { e with sum := e.sum.map (fun s => { s with bits_per_second := none }) }

/-- The same payload with the selected throughput figure made absent. -/
def eraseSelectedThroughput (r : IperfRaw) (isUdp : Bool) : IperfRaw :=
  match r.end_ with
  | none => r
  | some e => { r with end_ := some (eraseSelectedThroughputEnd e isUdp) }

/-! ## Claims C3, C4, C5 -/

/-- C3: for every raw payload with a completion section,
`extractIperfData` draws `bitsPerSecond` from `sum_received` for
newer-schema TCP, from `sum` for newer-schema UDP, and from `sum` when
the split section is absent (the drawn figure then being zero/absent
normalized), and draws `retransmits` from `sum_sent` exactly when the
split section is present, else from `sum`, regardless of protocol. -/
theorem extractIperfData_source_selection (r : IperfRaw) (isUdp : Bool)
    (e : IperfEnd) (h : r.end_ = some e) :
    (extractIperfData r isUdp).bitsPerSecond
        = zeroToNull (specThroughputSource e isUdp) ∧
    (extractIperfData r isUdp).retransmits = specRetransmitsSource e := by
  rcases r with ⟨e0, err, ver⟩
  cases h
  exact ⟨rfl, rfl⟩

/-- A newer-schema completion section: the spec's example of a TCP test
with received throughput 500000000, 12 sent retransmits, and an
aggregate summary rate of 948000000. -/
def sampleNewEnd : IperfEnd :=
  { sum_received := some { bits_per_second := some 500000000 }
    sum_sent := some { retransmits := some 12 }
    sum := some { bits_per_second := some 948000000, jitter_ms := none
                  lost_packets := none, packets := none
                  lost_percent := none, retransmits := some 3 }
    streams := [] }

/-- The raw payload holding `sampleNewEnd`. -/
def sampleNewPayload : IperfRaw :=
  { end_ := some sampleNewEnd, error := none, version := none }

/-- Witness for C3 at the spec's own example payload. -/
theorem extractIperfData_source_selection_witness :
    sampleNewPayload.end_ = some sampleNewEnd ∧
    (extractIperfData sampleNewPayload false).bitsPerSecond
        = zeroToNull (specThroughputSource sampleNewEnd false) ∧
    (extractIperfData sampleNewPayload false).retransmits
        = specRetransmitsSource sampleNewEnd :=
  ⟨rfl, extractIperfData_source_selection sampleNewPayload false sampleNewEnd rfl⟩

/-- C4: `runSingleTest` raises no error to its caller — every subprocess
failure or unparsable output (`.error`) and every parsed payload without
a completion section yields the canonical "not run" result, whose five
measurement fields are all null. -/
theorem runSingleTest_failure_notRun :
    (∀ msg isUdp, runSingleTest (.error msg) isUdp = nullTestProperty) ∧
    (∀ r isUdp, r.end_ = none → runSingleTest (.ok r) isUdp = nullTestProperty) ∧
    nullTestProperty.bitsPerSecond = none ∧
    nullTestProperty.retransmits = none ∧
    nullTestProperty.jitterMs = none ∧
    nullTestProperty.lostPackets = none ∧
    nullTestProperty.packetsReceived = none := by
  refine ⟨fun msg isUdp => rfl, fun r isUdp h => ?_, rfl, rfl, rfl, rfl, rfl⟩
  simp only [runSingleTest, extractIperfData, h]

/-- Witness for C4: a failed subprocess and a payload reporting only a
top-level error both normalize to the "not run" result. -/
theorem runSingleTest_failure_notRun_witness :
    runSingleTest (.error "spawn iperf3 ENOENT") true = nullTestProperty ∧
    runSingleTest (.ok ⟨none, some "unable to connect", none⟩) false
      = nullTestProperty :=
  ⟨runSingleTest_failure_notRun.1 "spawn iperf3 ENOENT" true,
   runSingleTest_failure_notRun.2.1 ⟨none, some "unable to connect", none⟩
     false rfl⟩

/-- C5: a selected throughput figure of exactly zero is normalized
identically to an absent figure — both yield a null `bitsPerSecond` —
and consequently `extractIperfData` never returns `bitsPerSecond = 0`. -/
theorem extractIperfData_zero_bps_is_absent (r : IperfRaw) (isUdp : Bool) :
    (extractIperfData r isUdp).bitsPerSecond ≠ some 0 ∧
    (∀ e, r.end_ = some e → specThroughputSource e isUdp = some 0 →
      (extractIperfData r isUdp).bitsPerSecond
          = (extractIperfData (eraseSelectedThroughput r isUdp) isUdp).bitsPerSecond ∧
      (extractIperfData r isUdp).bitsPerSecond = none) := by
  have hzn : ∀ o : Option ℚ, zeroToNull o ≠ some 0 := by
    intro o
    unfold zeroToNull
    split
    · simp
    · next hc =>
      push_neg at hc
      exact hc.2
  constructor
  · match h : r.end_ with
    | none => simp [extractIperfData, h, nullTestProperty]
    | some e =>
      rw [(extractIperfData_source_selection r isUdp e h).1]
      exact hzn _
  · intro e he hz
    have hb : (extractIperfData r isUdp).bitsPerSecond = none := by
      rw [(extractIperfData_source_selection r isUdp e he).1, hz]
      simp [zeroToNull]
    refine ⟨?_, hb⟩
    rw [hb]
    have he' : (eraseSelectedThroughput r isUdp).end_
        = some (eraseSelectedThroughputEnd e isUdp) := by
      simp [eraseSelectedThroughput, he]
    rw [(extractIperfData_source_selection (eraseSelectedThroughput r isUdp)
      isUdp _ he').1]
    have hs : specThroughputSource (eraseSelectedThroughputEnd e isUdp) isUdp
        = none := by
      by_cases hsr : e.sum_received.isSome <;> rcases isUdp <;>
        simp [specThroughputSource, eraseSelectedThroughputEnd, hsr]
    rw [hs]
    simp [zeroToNull]

/-- Witness for C5: a newer-schema UDP payload whose summary throughput
is exactly zero normalizes to null, identically to the erased payload. -/
theorem extractIperfData_zero_bps_is_absent_witness :
    (extractIperfData
        ⟨some ⟨some ⟨some 1⟩, none, some ⟨some 0, none, none, none, none, none⟩, []⟩,
         none, none⟩ true).bitsPerSecond ≠ some 0 ∧
    (extractIperfData
        ⟨some ⟨some ⟨some 1⟩, none, some ⟨some 0, none, none, none, none, none⟩, []⟩,
         none, none⟩ true).bitsPerSecond = none :=
  ⟨(extractIperfData_zero_bps_is_absent _ true).1,
   ((extractIperfData_zero_bps_is_absent _ true).2 _ rfl (by decide)).2⟩

/-! ## Concrete run environments used by witnesses and counterexamples -/

/-- A scanned network marked as the current association. -/
def sampleNetwork : WifiNetwork :=
  { ssid := "HomeNet", bssid := "aa:bb:cc:dd:ee:ff", band := 5180
    channel := 36, channelWidth := 80, security := "WPA2"
    signalStrength := 40, rssi := -65, currentSSID := true }

/-- A one-entry snapshot with the given signal strength. -/
def snapshotWith (v : ℤ) : WifiResults :=
  ⟨[{ sampleNetwork with signalStrength := v }]⟩

/-- A sample stand-in for the `toMbps` display helper. -/
def sampleToMbps : Option ℚ → String
  | none => "--"
  | some q => toString q

/-- A sample stand-in for the `percentageToRssi` conversion. -/
def samplePercentageToRssi (p : ℤ) : ℤ := p / 2 - 100

/-- Settings with both protocols enabled and a reachable server. -/
def sampleSettings : PartialHeatmapSettings :=
  { iperfServerAdrs := "192.168.1.5", testDuration := 1
    iperfTcpEnabled := true, iperfUdpEnabled := true }

/-- Settings with only TCP enabled. -/
def tcpOnlySettings : PartialHeatmapSettings :=
  { iperfServerAdrs := "192.168.1.5", testDuration := 1
    iperfTcpEnabled := true, iperfUdpEnabled := false }

/-- A benign environment: consistent snapshots before/middle/after with
strengths 40/44/46, successful subprocess calls, no cancellation. -/
def baseEnv : Env :=
  { preflight := "", checkIperf := ""
    scan := snapshotWith 40
    wifi1 := snapshotWith 40, wifi2 := snapshotWith 44, wifi3 := snapshotWith 46
    cancelFrom := none
    tcpDown := .ok sampleNewPayload, tcpUp := .ok sampleNewPayload
    udpDown := .ok sampleNewPayload, udpUp := .ok sampleNewPayload
    ticksTcpDown := [200], ticksTcpUp := [500]
    ticksUdpDown := [], ticksUdpUp := [900] }

/-- The after-snapshot entry of `mismatchEnv`: same network but a
different `bssid` (the operator roamed to another access point). -/
def roamedNetwork : WifiNetwork :=
  { sampleNetwork with signalStrength := 46, bssid := "11:22:33:44:55:66" }

/-- An environment whose after-snapshot disagrees with the before one on
`bssid`, so consistency validation fails. -/
def mismatchEnv : Env := { baseEnv with wifi3 := ⟨[roamedNetwork]⟩ }

/-! ## Claim C1 -/

/-- C1 (code bug): with a `bssid` mismatch between the before and after
snapshots, consistency validation fails and its error is thrown — but
the retry loop's `catch` swallows every non-cancellation error, the loop
ends (`maxRetries = 1`), and the function falls through to
`return { iperfData: newIperfData!, wifiData: newWifiData!, status: "" }`:
the caller receives the partially collected TCP bandwidth results and
the empty success status, not a distinct non-empty error status. -/
theorem runSurveyTests_consistency_mismatch_keeps_partial_result :
    validateWifiDataConsistency sampleNetwork roamedNetwork = false ∧
    (runSurveyTests sampleToMbps samplePercentageToRssi tcpOnlySettings
        mismatchEnv).result
      = .ok ⟨some ⟨extractIperfData sampleNewPayload false,
                   extractIperfData sampleNewPayload false,
                   nullTestProperty, nullTestProperty⟩,
             none, ""⟩ :=
  ⟨by decide, by rfl⟩

/-! ## Claim C6 -/

/-- C6: if the cancellation flag is observed at the checkpoint right
after the before-sample, with both protocols enabled, the run returns
the cancelled triple — status `"test was cancelled"`, null iperf and
Wi-Fi results — directly from the catch, and no bandwidth sub-test
subprocess is ever invoked. -/
theorem runSurveyTests_cancel_after_before_sample
    (toMbps : Option ℚ → String) (percentageToRssi : ℤ → ℤ)
    (s : PartialHeatmapSettings) (env : Env) (cur w1 : WifiNetwork)
    (hpre : env.preflight = "")
    (hsrv : s.iperfServerAdrs ≠ "localhost")
    (hchk : env.checkIperf = "")
    (htcp : s.iperfTcpEnabled = true)
    (hudp : s.iperfUdpEnabled = true)
    (hcur : (env.scan.SSIDs.filter (fun item => item.currentSSID)).head?
      = some cur)
    (hw1 : env.wifi1.SSIDs.head? = some w1)
    (hcancel : env.cancelFrom = some 0) :
    (runSurveyTests toMbps percentageToRssi s env).result
        = .ok ⟨none, none, "test was cancelled"⟩ ∧
    ∀ d t, Event.subtest d t ∉ (runSurveyTests toMbps percentageToRssi s env).events := by
  have h1 : ¬env.preflight ≠ "" := by simp [hpre]
  have h2 : ¬env.checkIperf ≠ "" := by simp [hchk]
  constructor
  · simp [runSurveyTests, attempt, isCancelled, h1, hsrv, h2, hcur, hw1,
      hcancel, cancelledError]
  · intro d t
    simp [runSurveyTests, attempt, isCancelled, h1, hsrv, h2, hcur, hw1,
      hcancel, cancelledError]

/-- Witness for C6 at a concrete cancelled environment. -/
theorem runSurveyTests_cancel_after_before_sample_witness :
    (runSurveyTests sampleToMbps samplePercentageToRssi sampleSettings
        { baseEnv with cancelFrom := some 0 }).result
      = .ok ⟨none, none, "test was cancelled"⟩ :=
  (runSurveyTests_cancel_after_before_sample sampleToMbps
    samplePercentageToRssi sampleSettings { baseEnv with cancelFrom := some 0 }
    sampleNetwork sampleNetwork rfl (by decide) rfl rfl rfl rfl rfl rfl).1

/-! ## Claim C10 -/

/-- C10: if the scanned snapshot has no entry marked as the current
network, reading `thisSSID[0].ssid` fails on an empty list, the failure
is published as the generic "Error taking measurements" done message by
the top-level catch, and the error is re-raised, so no result triple is
returned. -/
theorem runSurveyTests_no_current_ssid_rethrows
    (toMbps : Option ℚ → String) (percentageToRssi : ℤ → ℤ)
    (s : PartialHeatmapSettings) (env : Env)
    (hpre : env.preflight = "")
    (hcur : env.scan.SSIDs.filter (fun item => item.currentSSID) = []) :
    (runSurveyTests toMbps percentageToRssi s env).result
        = .error undefinedSsidRead ∧
    (runSurveyTests toMbps percentageToRssi s env).events.getLast?
        = some (Event.sse errorDoneMessage) := by
  have h1 : ¬env.preflight ≠ "" := by simp [hpre]
  constructor <;> simp [runSurveyTests, h1, hcur]

/-- Witness for C10: a scan whose single entry is not the current
network. -/
theorem runSurveyTests_no_current_ssid_rethrows_witness :
    (runSurveyTests sampleToMbps samplePercentageToRssi sampleSettings
        { baseEnv with scan := ⟨[{ sampleNetwork with currentSSID := false }]⟩ }).result
      = .error undefinedSsidRead :=
  (runSurveyTests_no_current_ssid_rethrows sampleToMbps samplePercentageToRssi
    sampleSettings
    { baseEnv with scan := ⟨[{ sampleNetwork with currentSSID := false }]⟩ }
    rfl (by decide)).1

/-! ## Trace-counting helpers -/

theorem doneCount_append (a b : List Event) :
    doneCount (a ++ b) = doneCount a + doneCount b :=
  List.countP_append _ _ _

theorem doneCount_subTestRun (ds : DS) (ppt : ℚ) (c : ℕ) (dur : ℕ)
    (ticks : List ℕ) (o : Except String IperfRaw) (u : Bool)
    (d : TestDirection) (t : TestType) (h : ds.type = "update") :
    doneCount (subTestRun ds ppt c dur ticks o u d t).1 = 0 := by
  simp [subTestRun, doneCount, List.countP_cons, List.countP_map,
    Function.comp_def, getUpdatedMessage, h]

theorem doneCount_nil : doneCount [] = 0 := rfl

theorem doneCount_cons_update (ds : DS) (l : List Event)
    (h : ds.type = "update") :
    doneCount (Event.sse (getUpdatedMessage ds) :: l) = doneCount l := by
  simp [doneCount, List.countP_cons, getUpdatedMessage, h]

theorem doneCount_cons_done (ds : DS) (l : List Event)
    (h : ds.type = "done") :
    doneCount (Event.sse (getUpdatedMessage ds) :: l) = doneCount l + 1 := by
  simp [doneCount, List.countP_cons, getUpdatedMessage, h]

theorem doneCount_cons_subtest (d : TestDirection) (t : TestType)
    (l : List Event) :
    doneCount (Event.subtest d t :: l) = doneCount l := by
  simp [doneCount, List.countP_cons]

/-- Whether a trace carries a `done`-typed "Measurement complete"
message. -/
def hasCompleteDone (evs : List Event) : Bool :=
  evs.any (fun e =>
    match e with
    | .sse m => m.type == "done" && m.header == "Measurement complete"
    | _ => false)

/-! ## Claim C9 -/

/-- C9: a run that reaches the after-bandwidth sample without
cancellation publishes the `done`-typed "Measurement complete" message
before consistency validation is evaluated, so the success-styled
message is published even when validation subsequently fails. -/
theorem runSurveyTests_complete_done_despite_inconsistency
    (toMbps : Option ℚ → String) (percentageToRssi : ℤ → ℤ)
    (s : PartialHeatmapSettings) (env : Env) (cur w1 w2 w3 : WifiNetwork)
    (hpre : env.preflight = "")
    (hcur : (env.scan.SSIDs.filter (fun item => item.currentSSID)).head?
      = some cur)
    (hw1 : env.wifi1.SSIDs.head? = some w1)
    (hw2 : env.wifi2.SSIDs.head? = some w2)
    (hw3 : env.wifi3.SSIDs.head? = some w3)
    (hnc : env.cancelFrom = none)
    (hval : validateWifiDataConsistency w1 w3 = false) :
    hasCompleteDone (runSurveyTests toMbps percentageToRssi s env).events
      = true := by
  have h1 : ¬env.preflight ≠ "" := by simp [hpre]
  have h2 : wifiChangedError ≠ cancelledError := by decide
  simp [runSurveyTests, attempt, isCancelled, h1, h2, hcur, hw1, hw2, hw3,
    hnc, hval, hasCompleteDone, List.any_append, getUpdatedMessage]

/-- Witness for C9: the mismatching concrete environment of C1's bug
still carries the "Measurement complete" done message. -/
theorem runSurveyTests_complete_done_despite_inconsistency_witness :
    hasCompleteDone (runSurveyTests sampleToMbps samplePercentageToRssi
      tcpOnlySettings mismatchEnv).events = true :=
  runSurveyTests_complete_done_despite_inconsistency sampleToMbps
    samplePercentageToRssi tcpOnlySettings mismatchEnv
    sampleNetwork sampleNetwork { sampleNetwork with signalStrength := 44 }
    roamedNetwork rfl (by decide) rfl rfl rfl rfl (by decide)

/-! ## Claim C2 -/

theorem doneCount_ite (c : Prop) [Decidable c] (a b : List Event) :
    doneCount (if c then a else b) = if c then doneCount a else doneCount b :=
  apply_ite doneCount c a b

theorem fst_ite {α β : Type} (c : Prop) [Decidable c] (x y : α × β) :
    (if c then x else y).1 = if c then x.1 else y.1 :=
  apply_ite Prod.fst c x y

theorem snd_ite {α β : Type} (c : Prop) [Decidable c] (x y : α × β) :
    (if c then x else y).2 = if c then x.2 else y.2 :=
  apply_ite Prod.snd c x y

theorem DS_type_ite (c : Prop) [Decidable c] (a b : DS) :
    (if c then a else b).type = if c then a.type else b.type :=
  apply_ite DS.type c a b

theorem subTestRun_ds (ds : DS) (ppt : ℚ) (c : ℕ) (dur : ℕ)
    (ticks : List ℕ) (o : Except String IperfRaw) (u : Bool)
    (d : TestDirection) (t : TestType) :
    (subTestRun ds ppt c dur ticks o u d t).2.1
      = { ds with progress := tickProgress ppt c 100 } := rfl

/-- The preflight-failing environment of C2's counterexample. -/
def preflightFailEnv : Env := { baseEnv with preflight := "sudo password is required" }

/-- C2 counterexample: a preflight-failure run returns before the try
block, publishing no message at all — in particular not exactly one
`done`-typed message as the claim states. -/
theorem runSurveyTests_preflight_failure_publishes_no_done :
    (runSurveyTests sampleToMbps samplePercentageToRssi sampleSettings
        preflightFailEnv).events = [] ∧
    ¬ doneCount (runSurveyTests sampleToMbps samplePercentageToRssi
        sampleSettings preflightFailEnv).events = 1 ∧
    (runSurveyTests sampleToMbps samplePercentageToRssi sampleSettings
        preflightFailEnv).result
      = .ok ⟨none, none, "sudo password is required"⟩ := by
  refine ⟨rfl, ?_, rfl⟩
  decide

/-- C2 amended: preflight-failure and cancelled runs publish no
`done`-typed message at all; runs that complete the measurement sequence
(whether consistency validation then passes or fails) publish exactly
one, and a run aborted because no scanned entry is the current network
publishes exactly one (the generic error message). -/
theorem runSurveyTests_done_message_accounting :
    (∀ (toMbps : Option ℚ → String) (percentageToRssi : ℤ → ℤ)
        (s : PartialHeatmapSettings) (env : Env), env.preflight ≠ "" →
        doneCount (runSurveyTests toMbps percentageToRssi s env).events = 0) ∧
    (∀ (toMbps : Option ℚ → String) (percentageToRssi : ℤ → ℤ)
        (s : PartialHeatmapSettings) (env : Env) (cur w1 w2 w3 : WifiNetwork)
        (j : ℕ), env.preflight = "" →
        (env.scan.SSIDs.filter (fun item => item.currentSSID)).head? = some cur →
        env.wifi1.SSIDs.head? = some w1 →
        env.wifi2.SSIDs.head? = some w2 →
        env.wifi3.SSIDs.head? = some w3 →
        env.cancelFrom = some j → j ≤ 4 →
        doneCount (runSurveyTests toMbps percentageToRssi s env).events = 0) ∧
    (∀ (toMbps : Option ℚ → String) (percentageToRssi : ℤ → ℤ)
        (s : PartialHeatmapSettings) (env : Env) (cur w1 w2 w3 : WifiNetwork),
        env.preflight = "" →
        (env.scan.SSIDs.filter (fun item => item.currentSSID)).head? = some cur →
        env.wifi1.SSIDs.head? = some w1 →
        env.wifi2.SSIDs.head? = some w2 →
        env.wifi3.SSIDs.head? = some w3 →
        env.cancelFrom = none →
        doneCount (runSurveyTests toMbps percentageToRssi s env).events = 1) ∧
    (∀ (toMbps : Option ℚ → String) (percentageToRssi : ℤ → ℤ)
        (s : PartialHeatmapSettings) (env : Env), env.preflight = "" →
        env.scan.SSIDs.filter (fun item => item.currentSSID) = [] →
        doneCount (runSurveyTests toMbps percentageToRssi s env).events = 1) := by
  have h2 : wifiChangedError ≠ cancelledError := by decide
  refine ⟨?_, ?_, ?_, ?_⟩
  · intro toMbps percentageToRssi s env h
    simp [runSurveyTests, h, doneCount]
  · intro toMbps percentageToRssi s env cur w1 w2 w3 j hpre hcur hw1 hw2 hw3
      hcf hj
    have h1 : ¬env.preflight ≠ "" := by simp [hpre]
    interval_cases j <;>
      simp [runSurveyTests, attempt, isCancelled, h1, hcur, hw1, hw2, hw3,
        hcf, doneCount_append, doneCount_subTestRun, doneCount_nil,
        doneCount_cons_update, doneCount_cons_done, doneCount_cons_subtest,
        doneCount_ite, fst_ite, snd_ite, DS_type_ite, subTestRun_ds,
        initialStates]
  · intro toMbps percentageToRssi s env cur w1 w2 w3 hpre hcur hw1 hw2 hw3 hnc
    have h1 : ¬env.preflight ≠ "" := by simp [hpre]
    by_cases hv : validateWifiDataConsistency w1 w3 <;>
      simp [runSurveyTests, attempt, isCancelled, h1, h2, hcur, hw1, hw2, hw3,
        hnc, hv, doneCount_append, doneCount_subTestRun, doneCount_nil,
        doneCount_cons_update, doneCount_cons_done, doneCount_cons_subtest,
        doneCount_ite, fst_ite, snd_ite, DS_type_ite, subTestRun_ds,
        initialStates]
  · intro toMbps percentageToRssi s env hpre hcur
    have h1 : ¬env.preflight ≠ "" := by simp [hpre]
    simp [runSurveyTests, h1, hcur, doneCount, getUpdatedMessage,
      initialStates, errorDoneMessage, List.countP_cons]

/-- Witness for C2's amended claim: the benign environment publishes
exactly one done message, and the cancelled variant publishes none. -/
theorem runSurveyTests_done_message_accounting_witness :
    doneCount (runSurveyTests sampleToMbps samplePercentageToRssi
      sampleSettings baseEnv).events = 1 ∧
    doneCount (runSurveyTests sampleToMbps samplePercentageToRssi
      sampleSettings { baseEnv with cancelFrom := some 2 }).events = 0 :=
  ⟨runSurveyTests_done_message_accounting.2.2.1 sampleToMbps
      samplePercentageToRssi sampleSettings baseEnv
      sampleNetwork sampleNetwork { sampleNetwork with signalStrength := 44 }
      { sampleNetwork with signalStrength := 46 }
      rfl (by decide) rfl rfl rfl rfl,
   runSurveyTests_done_message_accounting.2.1 sampleToMbps
      samplePercentageToRssi sampleSettings { baseEnv with cancelFrom := some 2 }
      sampleNetwork sampleNetwork { sampleNetwork with signalStrength := 44 }
      { sampleNetwork with signalStrength := 46 }
      2 rfl (by decide) rfl rfl rfl rfl (by decide)⟩

/-! ## Claim C8 -/

theorem subTestRun_result (ds : DS) (ppt : ℚ) (c : ℕ) (dur : ℕ)
    (ticks : List ℕ) (o : Except String IperfRaw) (u : Bool)
    (d : TestDirection) (t : TestType) :
    (subTestRun ds ppt c dur ticks o u d t).2.2 = runSingleTest o u := rfl

theorem arrayAverage_triple (a b c : ℤ) :
    arrayAverage [a, b, c] = round (((a + b + c : ℤ) : ℚ) / 3) := by
  have h3 : (([a, b, c] : List ℤ).length : ℚ) = 3 := by norm_num
  simp only [arrayAverage, if_neg (by simp : ¬([a, b, c] : List ℤ) = []),
    List.sum_cons, List.sum_nil, h3]
  congr 1
  push_cast
  ring

/-- C8: a run that completes (no cancellation, consistent snapshots)
returns a Wi-Fi entry whose `signalStrength` is the rounded arithmetic
mean of the before/middle/after samples and whose `rssi` is the
percentage-to-RSSI conversion of that averaged value — for an arbitrary
conversion function, hence not any directly sampled `rssi`. -/
theorem runSurveyTests_returns_averaged_signal
    (toMbps : Option ℚ → String) (percentageToRssi : ℤ → ℤ)
    (s : PartialHeatmapSettings) (env : Env) (cur w1 w2 w3 : WifiNetwork)
    (hpre : env.preflight = "")
    (hcur : (env.scan.SSIDs.filter (fun item => item.currentSSID)).head?
      = some cur)
    (hw1 : env.wifi1.SSIDs.head? = some w1)
    (hw2 : env.wifi2.SSIDs.head? = some w2)
    (hw3 : env.wifi3.SSIDs.head? = some w3)
    (hnc : env.cancelFrom = none)
    (hval : validateWifiDataConsistency w1 w3 = true) :
    ∃ ip, (runSurveyTests toMbps percentageToRssi s env).result
      = .ok ⟨some ip,
             some { w1 with
                    signalStrength := round (((w1.signalStrength
                      + w2.signalStrength + w3.signalStrength : ℤ) : ℚ) / 3)
                    rssi := percentageToRssi (round (((w1.signalStrength
                      + w2.signalStrength + w3.signalStrength : ℤ) : ℚ) / 3)) },
             ""⟩ := by
  have h1 : ¬env.preflight ≠ "" := by simp [hpre]
  simp [runSurveyTests, attempt, isCancelled, h1, hcur, hw1, hw2, hw3, hnc,
    hval, arrayAverage_triple]

/-- Witness for C8: the benign environment with samples 40/44/46 — the
spec's example — returns strength 43 and the conversion of 43. -/
theorem runSurveyTests_returns_averaged_signal_witness :
    ∃ ip, (runSurveyTests sampleToMbps samplePercentageToRssi sampleSettings
        baseEnv).result
      = .ok ⟨some ip,
             some { sampleNetwork with
                    signalStrength := round (((40 + 44 + 46 : ℤ) : ℚ) / 3)
                    rssi := samplePercentageToRssi
                      (round (((40 + 44 + 46 : ℤ) : ℚ) / 3)) },
             ""⟩ :=
  runSurveyTests_returns_averaged_signal sampleToMbps samplePercentageToRssi
    sampleSettings baseEnv sampleNetwork sampleNetwork
    { sampleNetwork with signalStrength := 44 }
    { sampleNetwork with signalStrength := 46 }
    rfl (by decide) rfl rfl rfl rfl (by decide)

/-! ## Claim C7: progress accounting -/

theorem round_mono {x y : ℚ} (h : x ≤ y) : round x ≤ round y := by
  rw [round_eq, round_eq]
  exact Int.floor_le_floor (by linarith)

theorem tickPercent_nonneg (dur e : ℕ) : 0 ≤ tickPercent dur e := by
  unfold tickPercent
  refine le_min ?_ (by norm_num)
  have h0 : (0 : ℚ) ≤ (e : ℚ) / (dur : ℚ) * 100 := by positivity
  calc (0 : ℤ) = round (0 : ℚ) := by simp
  _ ≤ _ := round_mono h0

theorem tickPercent_le_100 (dur e : ℕ) : tickPercent dur e ≤ 100 :=
  le_trans (min_le_right _ _) (by norm_num)

theorem tickPercent_mono (dur : ℕ) {e f : ℕ} (h : e ≤ f) :
    tickPercent dur e ≤ tickPercent dur f := by
  unfold tickPercent
  rcases Nat.eq_zero_or_pos dur with h0 | hpos
  · subst h0; simp
  · have hd : (0 : ℚ) < (dur : ℚ) := by exact_mod_cast hpos
    have harg : (e : ℚ) / (dur : ℚ) * 100 ≤ (f : ℚ) / (dur : ℚ) * 100 := by
      have : (e : ℚ) ≤ (f : ℚ) := by exact_mod_cast h
      gcongr
    exact min_le_min (round_mono harg) le_rfl

theorem tickProgress_mono {ppt : ℚ} (hppt : 0 ≤ ppt) (c : ℕ) {p q : ℤ}
    (h : p ≤ q) : tickProgress ppt c p ≤ tickProgress ppt c q := by
  unfold tickProgress
  apply round_mono
  have : (p : ℚ) / 100 * ppt ≤ (q : ℚ) / 100 * ppt := by
    have hpq : (p : ℚ) ≤ (q : ℚ) := by exact_mod_cast h
    gcongr
  linarith

theorem tickProgress_lower {ppt : ℚ} (hppt : 0 ≤ ppt) (c : ℕ) {p : ℤ}
    (hp : 0 ≤ p) : round ((c : ℚ) * ppt) ≤ tickProgress ppt c p := by
  unfold tickProgress
  apply round_mono
  have : (0 : ℚ) ≤ (p : ℚ) / 100 * ppt := by positivity
  linarith

theorem tickProgress_upper {ppt : ℚ} (hppt : 0 ≤ ppt) (c : ℕ) {p : ℤ}
    (hp : p ≤ 100) : tickProgress ppt c p ≤ round (((c : ℚ) + 1) * ppt) := by
  unfold tickProgress
  apply round_mono
  have hpq : (p : ℚ) ≤ 100 := by exact_mod_cast hp
  have : (p : ℚ) / 100 * ppt ≤ ppt := by
    calc (p : ℚ) / 100 * ppt ≤ (100 : ℚ) / 100 * ppt := by gcongr
    _ = ppt := by norm_num
  linarith

theorem tickProgress_100 (ppt : ℚ) (c : ℕ) :
    tickProgress ppt c 100 = round (((c : ℚ) + 1) * ppt) := by
  unfold tickProgress
  congr 1
  push_cast
  ring

/-- The progress values published by one bandwidth sub-test run. -/
def segVals (ppt : ℚ) (c : ℕ) (dur : ℕ) (ticks : List ℕ) : List ℤ :=
  (ticks.map (tickPercent dur) ++ [100]).map (tickProgress ppt c)

theorem progressValues_append (a b : List Event) :
    progressValues (a ++ b) = progressValues a ++ progressValues b :=
  List.filterMap_append _ _ _

theorem progressValues_nil : progressValues [] = [] := rfl

theorem progressValues_cons_msg (ds : DS) (l : List Event) :
    progressValues (Event.sse (getUpdatedMessage ds) :: l)
      = ds.progress :: progressValues l := by
  simp [progressValues, getUpdatedMessage, List.filterMap_cons]

theorem progressValues_cons_subtest (d : TestDirection) (t : TestType)
    (l : List Event) :
    progressValues (Event.subtest d t :: l) = progressValues l := by
  simp [progressValues, List.filterMap_cons]

theorem progressValues_subTestRun (ds : DS) (ppt : ℚ) (c : ℕ) (dur : ℕ)
    (ticks : List ℕ) (o : Except String IperfRaw) (u : Bool)
    (d : TestDirection) (t : TestType) :
    progressValues (subTestRun ds ppt c dur ticks o u d t).1
      = segVals ppt c dur ticks := by
  simp only [subTestRun, progressValues, segVals, List.filterMap_cons,
    List.filterMap_map, List.filterMap_append, Function.comp_def,
    getUpdatedMessage, List.map_append, List.map_map, List.map_cons,
    List.map_nil]
  rw [show (fun x => some (tickProgress ppt c (tickPercent dur x)))
      = some ∘ (fun x => tickProgress ppt c (tickPercent dur x)) from rfl,
    List.filterMap_eq_map]
  rfl

theorem segVals_chain' {ppt : ℚ} (hppt : 0 ≤ ppt) (c dur : ℕ)
    {ticks : List ℕ} (hticks : List.Chain' (· ≤ ·) ticks) :
    List.Chain' (· ≤ ·) (segVals ppt c dur ticks) := by
  unfold segVals
  apply List.chain'_map_of_chain' _ (fun a b hab => tickProgress_mono hppt c hab)
  apply List.Chain'.append
  · exact List.chain'_map_of_chain' _ (fun a b hab => tickPercent_mono dur hab)
      hticks
  · exact List.chain'_singleton 100
  · intro x hx y hy
    simp at hy
    subst hy
    have hx' := List.mem_of_mem_getLast? hx
    simp only [List.mem_map] at hx'
    obtain ⟨e, _, rfl⟩ := hx'
    exact tickPercent_le_100 dur e

theorem segVals_bounds {ppt : ℚ} (hppt : 0 ≤ ppt) (c dur : ℕ)
    (ticks : List ℕ) :
    ∀ x ∈ segVals ppt c dur ticks,
      round ((c : ℚ) * ppt) ≤ x ∧ x ≤ round (((c : ℚ) + 1) * ppt) := by
  intro x hx
  unfold segVals at hx
  rw [List.mem_map] at hx
  obtain ⟨p, hp, rfl⟩ := hx
  rw [List.mem_append] at hp
  rcases hp with hp | hp
  · rw [List.mem_map] at hp
    obtain ⟨e, _, rfl⟩ := hp
    exact ⟨tickProgress_lower hppt c (tickPercent_nonneg dur e),
      tickProgress_upper hppt c (tickPercent_le_100 dur e)⟩
  · rw [List.mem_singleton] at hp
    subst hp
    exact ⟨tickProgress_lower hppt c (by norm_num),
      tickProgress_upper hppt c (by norm_num)⟩

/-- Extending a monotone, lower-bounded suffix by one value. -/
theorem chain'_lb_cons {b x : ℤ} {l : List ℤ} (hb : b ≤ x)
    (hl : List.Chain' (· ≤ ·) l) (hlb : ∀ y ∈ l, x ≤ y) :
    List.Chain' (· ≤ ·) (x :: l) ∧ ∀ y ∈ x :: l, b ≤ y := by
  constructor
  · rw [List.chain'_cons']
    exact ⟨fun y hy => hlb y (List.mem_of_mem_head? hy), hl⟩
  · intro y hy
    rcases List.mem_cons.1 hy with rfl | hy
    · exact hb
    · exact le_trans hb (hlb y hy)

/-- Extending a monotone, lower-bounded suffix by a bounded segment. -/
theorem chain'_lb_append {b B : ℤ} {s l : List ℤ} (hbB : b ≤ B)
    (hs : List.Chain' (· ≤ ·) s) (hsb : ∀ x ∈ s, b ≤ x ∧ x ≤ B)
    (hl : List.Chain' (· ≤ ·) l) (hlb : ∀ y ∈ l, B ≤ y) :
    List.Chain' (· ≤ ·) (s ++ l) ∧ ∀ y ∈ s ++ l, b ≤ y := by
  constructor
  · refine hs.append hl (fun x hx y hy => ?_)
    exact le_trans (hsb x (List.mem_of_mem_getLast? hx)).2
      (hlb y (List.mem_of_mem_head? hy))
  · intro y hy
    rcases List.mem_append.1 hy with hy | hy
    · exact (hsb y hy).1
    · exact le_trans hbB (hlb y hy)

/-- The progress grid: the published value after `k` completed units. -/
def rGrid (ppt : ℚ) (k : ℕ) : ℤ := round ((k : ℚ) * ppt)

theorem rGrid_zero (ppt : ℚ) : rGrid ppt 0 = 0 := by
  simp [rGrid]

theorem rGrid_mono {ppt : ℚ} (hppt : 0 ≤ ppt) (k : ℕ) :
    rGrid ppt k ≤ rGrid ppt (k + 1) := by
  unfold rGrid
  apply round_mono
  have h : ((k : ℚ) + 1) * ppt = (k : ℚ) * ppt + ppt := by ring
  push_cast
  rw [h]
  linarith

theorem tickProgress_100' (ppt : ℚ) (c : ℕ) :
    tickProgress ppt c 100 = rGrid ppt (c + 1) := by
  rw [tickProgress_100]
  unfold rGrid
  congr 1
  push_cast
  ring

theorem segVals_bounds' {ppt : ℚ} (hppt : 0 ≤ ppt) (c dur : ℕ)
    (ticks : List ℕ) :
    ∀ x ∈ segVals ppt c dur ticks, rGrid ppt c ≤ x ∧ x ≤ rGrid ppt (c + 1) := by
  intro x hx
  have h := segVals_bounds hppt c dur ticks x hx
  refine ⟨h.1, le_trans h.2 (le_of_eq ?_)⟩
  unfold rGrid
  congr 1
  push_cast
  ring

/-- Monotonicity of the published progress list of a run that executed
two bandwidth units and then published the (monotone, suitably bounded)
tail `tail`. -/
theorem chainTwoG {ppt : ℚ} (hppt : 0 ≤ ppt) (dur : ℕ)
    {l1 l2 : List ℕ}
    (h1 : List.Chain' (· ≤ ·) l1) (h2 : List.Chain' (· ≤ ·) l2)
    (tail : List ℤ) (htail : List.Chain' (· ≤ ·) tail)
    (htlb : ∀ y ∈ tail, rGrid ppt 2 ≤ y) :
    List.Chain' (· ≤ ·)
      (0 :: (segVals ppt 0 dur l1
        ++ tickProgress ppt 0 100 :: (segVals ppt 1 dur l2 ++ tail))) := by
  have A1 := chain'_lb_append (rGrid_mono hppt 1)
    (segVals_chain' hppt 1 dur h2) (segVals_bounds' hppt 1 dur l2) htail htlb
  have ht0 : tickProgress ppt 0 100 = rGrid ppt 1 := tickProgress_100' ppt 0
  have A0t := chain'_lb_cons (le_of_eq ht0.symm) A1.1
    (fun y hy => ht0 ▸ A1.2 y hy)
  have A0 := chain'_lb_append (rGrid_mono hppt 0)
    (segVals_chain' hppt 0 dur h1) (segVals_bounds' hppt 0 dur l1) A0t.1 A0t.2
  rw [List.chain'_cons']
  refine ⟨fun y hy => ?_, A0.1⟩
  have := A0.2 y (List.mem_of_mem_head? hy)
  rwa [rGrid_zero] at this

/-- Monotonicity of the published progress list of a run that executed
all four bandwidth units and then published the tail `tail`. -/
theorem chainFourG {ppt : ℚ} (hppt : 0 ≤ ppt) (dur : ℕ)
    {l1 l2 l3 l4 : List ℕ}
    (h1 : List.Chain' (· ≤ ·) l1) (h2 : List.Chain' (· ≤ ·) l2)
    (h3 : List.Chain' (· ≤ ·) l3) (h4 : List.Chain' (· ≤ ·) l4)
    (tail : List ℤ) (htail : List.Chain' (· ≤ ·) tail)
    (htlb : ∀ y ∈ tail, rGrid ppt 4 ≤ y) :
    List.Chain' (· ≤ ·)
      (0 :: (segVals ppt 0 dur l1
        ++ tickProgress ppt 0 100 :: (segVals ppt 1 dur l2
          ++ tickProgress ppt 1 100 :: tickProgress ppt 1 100 ::
            (segVals ppt 2 dur l3
              ++ tickProgress ppt 2 100 :: (segVals ppt 3 dur l4
                ++ tail))))) := by
  have A4 := chain'_lb_append (rGrid_mono hppt 3)
    (segVals_chain' hppt 3 dur h4) (segVals_bounds' hppt 3 dur l4) htail htlb
  have ht2 : tickProgress ppt 2 100 = rGrid ppt 3 := tickProgress_100' ppt 2
  have A3 := chain'_lb_cons (le_of_eq ht2.symm) A4.1
    (fun y hy => ht2 ▸ A4.2 y hy)
  have A2 := chain'_lb_append (rGrid_mono hppt 2)
    (segVals_chain' hppt 2 dur h3) (segVals_bounds' hppt 2 dur l3) A3.1 A3.2
  have ht1 : tickProgress ppt 1 100 = rGrid ppt 2 := tickProgress_100' ppt 1
  have A1b := chain'_lb_cons (le_of_eq ht1.symm) A2.1
    (fun y hy => ht1 ▸ A2.2 y hy)
  have A1a := chain'_lb_cons (le_of_eq ht1.symm) A1b.1
    (fun y hy => ht1 ▸ A1b.2 y hy)
  have A1 := chain'_lb_append (rGrid_mono hppt 1)
    (segVals_chain' hppt 1 dur h2) (segVals_bounds' hppt 1 dur l2) A1a.1 A1a.2
  have ht0 : tickProgress ppt 0 100 = rGrid ppt 1 := tickProgress_100' ppt 0
  have A0t := chain'_lb_cons (le_of_eq ht0.symm) A1.1
    (fun y hy => ht0 ▸ A1.2 y hy)
  have A0 := chain'_lb_append (rGrid_mono hppt 0)
    (segVals_chain' hppt 0 dur h1) (segVals_bounds' hppt 0 dur l1) A0t.1 A0t.2
  rw [List.chain'_cons']
  refine ⟨fun y hy => ?_, A0.1⟩
  have := A0.2 y (List.mem_of_mem_head? hy)
  rwa [rGrid_zero] at this

theorem tail_lb_100 {ppt : ℚ} {n : ℕ} (h : rGrid ppt n ≤ 100) :
    ∀ y ∈ ([100, 100] : List ℤ), rGrid ppt n ≤ y := by
  intro y hy
  rcases List.mem_cons.1 hy with rfl | hy
  · exact h
  · rcases List.mem_cons.1 hy with rfl | hy
    · exact h
    · simp at hy

theorem chain_100_pair : List.Chain' (· ≤ ·) ([100, 100] : List ℤ) :=
  List.chain'_cons.2 ⟨le_refl _, List.chain'_singleton _⟩

/-- The overall bandwidth-testing switch `runSurveyTests` computes
before the retry loop (`performIperfTest` in the source): false when the
server address is the localhost sentinel or the reachability probe
returned a non-empty reason, true otherwise. -/
def performIperfTest (s : PartialHeatmapSettings) (env : Env) : Bool :=
  if s.iperfServerAdrs = "localhost" then false
  else if env.checkIperf ≠ "" then false
  else true

/-- The effective TCP enablement the orchestrator computes:
`performIperfTest && settings.iperfTcpEnabled`. -/
def tcpEffective (s : PartialHeatmapSettings) (env : Env) : Bool :=
  performIperfTest s env && s.iperfTcpEnabled

/-- The effective UDP enablement the orchestrator computes:
`performIperfTest && settings.iperfUdpEnabled`. -/
def udpEffective (s : PartialHeatmapSettings) (env : Env) : Bool :=
  performIperfTest s env && s.iperfUdpEnabled

/-- Monotonicity of every published progress sequence of a run that
passed preflight and scanning and whose three snapshots are readable,
whether bandwidth testing is performed or degraded away (localhost
sentinel or failed probe), and whether the run completes or is
cancelled at any checkpoint. -/
theorem chainProgressNoCancel
    (toMbps : Option ℚ → String) (percentageToRssi : ℤ → ℤ)
    (s : PartialHeatmapSettings) (env : Env) (cur w1 w2 w3 : WifiNetwork)
    (hpre : env.preflight = "")
    (hcur : (env.scan.SSIDs.filter (fun item => item.currentSSID)).head? = some cur)
    (hw1 : env.wifi1.SSIDs.head? = some w1)
    (hw2 : env.wifi2.SSIDs.head? = some w2)
    (hw3 : env.wifi3.SSIDs.head? = some w3)
    (hc0 : isCancelled env.cancelFrom 0 = false)
    (hc1 : isCancelled env.cancelFrom 1 = false)
    (hc2 : isCancelled env.cancelFrom 2 = false)
    (hc3 : isCancelled env.cancelFrom 3 = false)
    (hc4 : isCancelled env.cancelFrom 4 = false)
    (ht1 : List.Chain' (· ≤ ·) env.ticksTcpDown)
    (ht2 : List.Chain' (· ≤ ·) env.ticksTcpUp)
    (ht3 : List.Chain' (· ≤ ·) env.ticksUdpDown)
    (ht4 : List.Chain' (· ≤ ·) env.ticksUdpUp) :
    List.Chain' (· ≤ ·)
      (progressValues (runSurveyTests toMbps percentageToRssi s env).events) := by
  have h1 : ¬env.preflight ≠ "" := by simp [hpre]
  have h2 : wifiChangedError ≠ cancelledError := by decide
  by_cases hloc : s.iperfServerAdrs = "localhost"
  · by_cases hv : validateWifiDataConsistency w1 w3 <;>
      simp [runSurveyTests, attempt, h1, h2, hloc, hcur,
        hw1, hw2, hw3, hc0, hc1, hc2, hc3, hc4, hv, initialStates,
        subTestRun_ds, progressValues_append, progressValues_cons_msg,
        progressValues_cons_subtest, progressValues_subTestRun,
        progressValues_nil]
  by_cases hci : env.checkIperf = ""
  case neg =>
    by_cases hv : validateWifiDataConsistency w1 w3 <;>
      simp [runSurveyTests, attempt, h1, h2, hloc, hci, hcur,
        hw1, hw2, hw3, hc0, hc1, hc2, hc3, hc4, hv, initialStates,
        subTestRun_ds, progressValues_append, progressValues_cons_msg,
        progressValues_cons_subtest, progressValues_subTestRun,
        progressValues_nil]
  case pos =>
  by_cases hv : validateWifiDataConsistency w1 w3 <;>
    rcases htc : s.iperfTcpEnabled <;> rcases hud : s.iperfUdpEnabled <;>
    simp [runSurveyTests, attempt, h1, h2, hloc, hci, hcur,
      hw1, hw2, hw3, hc0, hc1, hc2, hc3, hc4, htc, hud, hv, initialStates,
      subTestRun_ds, progressValues_append, progressValues_cons_msg,
      progressValues_cons_subtest, progressValues_subTestRun,
      progressValues_nil]
  · exact chainTwoG (by norm_num) _ ht3 ht4 _ chain_100_pair
      (tail_lb_100 (by norm_num [rGrid, round_eq]))
  · refine chainTwoG (by norm_num) _ ht1 ht2 _ ?_ ?_
    · rw [tickProgress_100' (100 / 2) 1]
      refine List.chain'_cons.2 ⟨le_refl _, ?_⟩
      refine List.chain'_cons.2 ⟨by norm_num [rGrid, round_eq], ?_⟩
      exact chain_100_pair
    · intro y hy
      rw [tickProgress_100' (100 / 2) 1] at hy
      rcases List.mem_cons.1 hy with rfl | hy
      · exact le_refl _
      · rcases List.mem_cons.1 hy with rfl | hy
        · exact le_refl _
        · exact tail_lb_100 (by norm_num [rGrid, round_eq]) y hy
  · exact chainFourG (by norm_num) _ ht1 ht2 ht3 ht4 _ chain_100_pair
      (tail_lb_100 (by norm_num [rGrid, round_eq]))
  · exact chainTwoG (by norm_num) _ ht3 ht4 _ chain_100_pair
      (tail_lb_100 (by norm_num [rGrid, round_eq]))
  · refine chainTwoG (by norm_num) _ ht1 ht2 _ ?_ ?_
    · rw [tickProgress_100' (100 / 2) 1]
      refine List.chain'_cons.2 ⟨le_refl _, ?_⟩
      refine List.chain'_cons.2 ⟨by norm_num [rGrid, round_eq], ?_⟩
      exact chain_100_pair
    · intro y hy
      rw [tickProgress_100' (100 / 2) 1] at hy
      rcases List.mem_cons.1 hy with rfl | hy
      · exact le_refl _
      · rcases List.mem_cons.1 hy with rfl | hy
        · exact le_refl _
        · exact tail_lb_100 (by norm_num [rGrid, round_eq]) y hy
  · exact chainFourG (by norm_num) _ ht1 ht2 ht3 ht4 _ chain_100_pair
      (tail_lb_100 (by norm_num [rGrid, round_eq]))

theorem tail_lb_single {ppt : ℚ} {n : ℕ} {v : ℤ} (h : rGrid ppt n ≤ v) :
    ∀ y ∈ ([v] : List ℤ), rGrid ppt n ≤ y := by
  intro y hy
  rw [List.mem_singleton] at hy
  subst hy
  exact h

/-- Whether every `done`-typed message of the trace carries progress
exactly 100. -/
def doneHas100 (evs : List Event) : Bool :=
  evs.all (fun e =>
    match e with
    | .sse m => (m.type != "done") || (m.progress == some (100 : ℤ))
    | _ => true)

set_option maxHeartbeats 1600000 in
/-- C7: in every run that passes preflight and scanning with readable
snapshots (with the interval's elapsed-time samples non-decreasing, as
wall-clock time is), the published progress values are monotonically
non-decreasing — whether bandwidth testing runs or is degraded away by
the localhost sentinel or a failed reachability probe, and whether the
run completes or is cancelled at any checkpoint — and every `done`-typed
message carries progress exactly 100; in an uncancelled run each of the
`2·tcpEffective + 2·udpEffective` effectively enabled units ends at the
equal-share value `round((k+1)·100/total)`, and with zero units
effectively enabled the published progress jumps straight from 0 to 100
after sampling. -/
theorem runSurveyTests_progress_accounting
    (toMbps : Option ℚ → String) (percentageToRssi : ℤ → ℤ)
    (s : PartialHeatmapSettings) (env : Env) (cur w1 w2 w3 : WifiNetwork)
    (hpre : env.preflight = "")
    (hcur : (env.scan.SSIDs.filter (fun item => item.currentSSID)).head? = some cur)
    (hw1 : env.wifi1.SSIDs.head? = some w1)
    (hw2 : env.wifi2.SSIDs.head? = some w2)
    (hw3 : env.wifi3.SSIDs.head? = some w3)
    (ht1 : List.Chain' (· ≤ ·) env.ticksTcpDown)
    (ht2 : List.Chain' (· ≤ ·) env.ticksTcpUp)
    (ht3 : List.Chain' (· ≤ ·) env.ticksUdpDown)
    (ht4 : List.Chain' (· ≤ ·) env.ticksUdpUp) :
    List.Chain' (· ≤ ·)
      (progressValues (runSurveyTests toMbps percentageToRssi s env).events) ∧
    doneHas100 (runSurveyTests toMbps percentageToRssi s env).events = true ∧
    (env.cancelFrom = none →
      ∀ k : ℕ, k < 2 * (if tcpEffective s env then 1 else 0)
        + 2 * (if udpEffective s env then 1 else 0) →
      round ((((k : ℚ) + 1) * 100)
          / ((2 * (if tcpEffective s env then 1 else 0)
            + 2 * (if udpEffective s env then 1 else 0) : ℕ) : ℚ))
        ∈ progressValues (runSurveyTests toMbps percentageToRssi s env).events) ∧
    (env.cancelFrom = none →
      2 * (if tcpEffective s env then 1 else 0)
        + 2 * (if udpEffective s env then 1 else 0) = 0 →
      progressValues (runSurveyTests toMbps percentageToRssi s env).events
        = [0, 0, 0, 0, 100, 100]) := by
  have h1 : ¬env.preflight ≠ "" := by simp [hpre]
  have h2 : wifiChangedError ≠ cancelledError := by decide
  refine ⟨?_, ?_, ?_, ?_⟩
  · -- monotonicity, all cancellation schedules, degraded or not
    rcases hnc : env.cancelFrom with _ | j
    · exact chainProgressNoCancel toMbps percentageToRssi s env cur w1 w2 w3
        hpre hcur hw1 hw2 hw3
        (by simp [hnc, isCancelled]) (by simp [hnc, isCancelled])
        (by simp [hnc, isCancelled]) (by simp [hnc, isCancelled])
        (by simp [hnc, isCancelled]) ht1 ht2 ht3 ht4
    · rcases j with _ | _ | _ | _ | _ | j
      · by_cases hloc : s.iperfServerAdrs = "localhost"
        · simp [runSurveyTests, attempt, isCancelled, h1, h2, hcur,
              hw1, hw2, hw3, hnc, initialStates, subTestRun_ds,
              progressValues_append, progressValues_cons_msg,
              progressValues_cons_subtest, progressValues_subTestRun,
              progressValues_nil, hloc]
        by_cases hci : env.checkIperf = ""
        case neg =>
          simp [runSurveyTests, attempt, isCancelled, h1, h2, hcur,
              hw1, hw2, hw3, hnc, initialStates, subTestRun_ds,
              progressValues_append, progressValues_cons_msg,
              progressValues_cons_subtest, progressValues_subTestRun,
              progressValues_nil, hloc, hci]
        case pos =>
        rcases htc : s.iperfTcpEnabled <;> rcases hud : s.iperfUdpEnabled <;>
          simp [runSurveyTests, attempt, isCancelled, h1, h2, hcur,
              hw1, hw2, hw3, hnc, initialStates, subTestRun_ds,
              progressValues_append, progressValues_cons_msg,
              progressValues_cons_subtest, progressValues_subTestRun,
              progressValues_nil, hloc, hci, htc, hud]
      · by_cases hloc : s.iperfServerAdrs = "localhost"
        · simp [runSurveyTests, attempt, isCancelled, h1, h2, hcur,
              hw1, hw2, hw3, hnc, initialStates, subTestRun_ds,
              progressValues_append, progressValues_cons_msg,
              progressValues_cons_subtest, progressValues_subTestRun,
              progressValues_nil, hloc]
        by_cases hci : env.checkIperf = ""
        case neg =>
          simp [runSurveyTests, attempt, isCancelled, h1, h2, hcur,
              hw1, hw2, hw3, hnc, initialStates, subTestRun_ds,
              progressValues_append, progressValues_cons_msg,
              progressValues_cons_subtest, progressValues_subTestRun,
              progressValues_nil, hloc, hci]
        case pos =>
        rcases htc : s.iperfTcpEnabled <;> rcases hud : s.iperfUdpEnabled <;>
          simp [runSurveyTests, attempt, isCancelled, h1, h2, hcur,
              hw1, hw2, hw3, hnc, initialStates, subTestRun_ds,
              progressValues_append, progressValues_cons_msg,
              progressValues_cons_subtest, progressValues_subTestRun,
              progressValues_nil, hloc, hci, htc, hud]
        · simpa using @chainTwoG (100 / 2) (by norm_num)
            (s.testDuration * 1000) env.ticksTcpDown env.ticksTcpUp ht1 ht2
            ([] : List ℤ) List.chain'_nil (by simp)
        · simpa using @chainTwoG (100 / (2 + 2)) (by norm_num)
            (s.testDuration * 1000) env.ticksTcpDown env.ticksTcpUp ht1 ht2
            ([] : List ℤ) List.chain'_nil (by simp)
      · by_cases hloc : s.iperfServerAdrs = "localhost"
        · simp [runSurveyTests, attempt, isCancelled, h1, h2, hcur,
              hw1, hw2, hw3, hnc, initialStates, subTestRun_ds,
              progressValues_append, progressValues_cons_msg,
              progressValues_cons_subtest, progressValues_subTestRun,
              progressValues_nil, hloc]
        by_cases hci : env.checkIperf = ""
        case neg =>
          simp [runSurveyTests, attempt, isCancelled, h1, h2, hcur,
              hw1, hw2, hw3, hnc, initialStates, subTestRun_ds,
              progressValues_append, progressValues_cons_msg,
              progressValues_cons_subtest, progressValues_subTestRun,
              progressValues_nil, hloc, hci]
        case pos =>
        rcases htc : s.iperfTcpEnabled <;> rcases hud : s.iperfUdpEnabled <;>
          simp [runSurveyTests, attempt, isCancelled, h1, h2, hcur,
              hw1, hw2, hw3, hnc, initialStates, subTestRun_ds,
              progressValues_append, progressValues_cons_msg,
              progressValues_cons_subtest, progressValues_subTestRun,
              progressValues_nil, hloc, hci, htc, hud]
        · exact chainTwoG (by norm_num) _ ht1 ht2 _
            (List.chain'_singleton _)
            (tail_lb_single (le_of_eq (tickProgress_100' (100 / 2) 1).symm))
        · exact chainTwoG (by norm_num) _ ht1 ht2 _
            (List.chain'_singleton _)
            (tail_lb_single (le_of_eq (tickProgress_100' (100 / (2 + 2)) 1).symm))
      · by_cases hloc : s.iperfServerAdrs = "localhost"
        · simp [runSurveyTests, attempt, isCancelled, h1, h2, hcur,
              hw1, hw2, hw3, hnc, initialStates, subTestRun_ds,
              progressValues_append, progressValues_cons_msg,
              progressValues_cons_subtest, progressValues_subTestRun,
              progressValues_nil, hloc]
        by_cases hci : env.checkIperf = ""
        case neg =>
          simp [runSurveyTests, attempt, isCancelled, h1, h2, hcur,
              hw1, hw2, hw3, hnc, initialStates, subTestRun_ds,
              progressValues_append, progressValues_cons_msg,
              progressValues_cons_subtest, progressValues_subTestRun,
              progressValues_nil, hloc, hci]
        case pos =>
        rcases htc : s.iperfTcpEnabled <;> rcases hud : s.iperfUdpEnabled <;>
          simp [runSurveyTests, attempt, isCancelled, h1, h2, hcur,
              hw1, hw2, hw3, hnc, initialStates, subTestRun_ds,
              progressValues_append, progressValues_cons_msg,
              progressValues_cons_subtest, progressValues_subTestRun,
              progressValues_nil, hloc, hci, htc, hud]
        · simpa using @chainTwoG (100 / 2) (by norm_num)
            (s.testDuration * 1000) env.ticksUdpDown env.ticksUdpUp ht3 ht4
            ([] : List ℤ) List.chain'_nil (by simp)
        · refine chainTwoG (by norm_num) _ ht1 ht2 _ ?_ ?_
          · rw [tickProgress_100' (100 / 2) 1]
            exact List.chain'_pair.2 (le_refl _)
          · intro y hy
            rw [tickProgress_100' (100 / 2) 1] at hy
            rcases List.mem_cons.1 hy with rfl | hy
            · exact le_refl _
            · rcases List.mem_cons.1 hy with rfl | hy
              · exact le_refl _
              · simp at hy
        · simpa using @chainFourG (100 / (2 + 2)) (by norm_num)
            (s.testDuration * 1000) env.ticksTcpDown env.ticksTcpUp
            env.ticksUdpDown env.ticksUdpUp ht1 ht2 ht3 ht4 ([] : List ℤ)
            List.chain'_nil (by simp)
      · by_cases hloc : s.iperfServerAdrs = "localhost"
        · simp [runSurveyTests, attempt, isCancelled, h1, h2, hcur,
              hw1, hw2, hw3, hnc, initialStates, subTestRun_ds,
              progressValues_append, progressValues_cons_msg,
              progressValues_cons_subtest, progressValues_subTestRun,
              progressValues_nil, hloc]
        by_cases hci : env.checkIperf = ""
        case neg =>
          simp [runSurveyTests, attempt, isCancelled, h1, h2, hcur,
              hw1, hw2, hw3, hnc, initialStates, subTestRun_ds,
              progressValues_append, progressValues_cons_msg,
              progressValues_cons_subtest, progressValues_subTestRun,
              progressValues_nil, hloc, hci]
        case pos =>
        rcases htc : s.iperfTcpEnabled <;> rcases hud : s.iperfUdpEnabled <;>
          simp [runSurveyTests, attempt, isCancelled, h1, h2, hcur,
              hw1, hw2, hw3, hnc, initialStates, subTestRun_ds,
              progressValues_append, progressValues_cons_msg,
              progressValues_cons_subtest, progressValues_subTestRun,
              progressValues_nil, hloc, hci, htc, hud]
        · exact chainTwoG (by norm_num) _ ht3 ht4 _
            (List.chain'_singleton _)
            (tail_lb_single (by norm_num [rGrid, round_eq]))
        · refine chainTwoG (by norm_num) _ ht1 ht2 _ ?_ ?_
          · rw [tickProgress_100' (100 / 2) 1]
            refine List.chain'_cons.2 ⟨le_refl _, ?_⟩
            exact List.chain'_pair.2 (by norm_num [rGrid, round_eq])
          · intro y hy
            rw [tickProgress_100' (100 / 2) 1] at hy
            rcases List.mem_cons.1 hy with rfl | hy
            · exact le_refl _
            · rcases List.mem_cons.1 hy with rfl | hy
              · exact le_refl _
              · exact tail_lb_single (by norm_num [rGrid, round_eq]) y hy
        · exact chainFourG (by norm_num) _ ht1 ht2 ht3 ht4 _
            (List.chain'_singleton _)
            (tail_lb_single (by norm_num [rGrid, round_eq]))
      · exact chainProgressNoCancel toMbps percentageToRssi s env cur w1 w2 w3
          hpre hcur hw1 hw2 hw3
          (by simp only [hnc, isCancelled, decide_eq_false_iff_not]; omega)
          (by simp only [hnc, isCancelled, decide_eq_false_iff_not]; omega)
          (by simp only [hnc, isCancelled, decide_eq_false_iff_not]; omega)
          (by simp only [hnc, isCancelled, decide_eq_false_iff_not]; omega)
          (by simp only [hnc, isCancelled, decide_eq_false_iff_not]; omega)
          ht1 ht2 ht3 ht4
  · -- every done-typed message carries progress 100
    rcases hnc : env.cancelFrom with _ | j
    · by_cases hloc : s.iperfServerAdrs = "localhost"
      · by_cases hv : validateWifiDataConsistency w1 w3 <;>
          simp [runSurveyTests, attempt, isCancelled, h1, h2, hcur,
            hw1, hw2, hw3, hnc, initialStates, subTestRun,
            getUpdatedMessage, doneHas100, runSingleTest, hloc, hv]
      by_cases hci : env.checkIperf = ""
      case neg =>
        by_cases hv : validateWifiDataConsistency w1 w3 <;>
          simp [runSurveyTests, attempt, isCancelled, h1, h2, hcur,
            hw1, hw2, hw3, hnc, initialStates, subTestRun,
            getUpdatedMessage, doneHas100, runSingleTest, hloc, hci, hv]
      case pos =>
      by_cases hv : validateWifiDataConsistency w1 w3 <;>
        rcases htc : s.iperfTcpEnabled <;> rcases hud : s.iperfUdpEnabled <;>
        simp [runSurveyTests, attempt, isCancelled, h1, h2, hcur,
            hw1, hw2, hw3, hnc, initialStates, subTestRun,
            getUpdatedMessage, doneHas100, runSingleTest, hloc, hci, htc, hud, hv]
    · rcases j with _ | _ | _ | _ | _ | j
      · by_cases hloc : s.iperfServerAdrs = "localhost"
        · simp [runSurveyTests, attempt, isCancelled, h1, h2, hcur,
            hw1, hw2, hw3, hnc, initialStates, subTestRun,
            getUpdatedMessage, doneHas100, runSingleTest, hloc]
        by_cases hci : env.checkIperf = ""
        case neg =>
          simp [runSurveyTests, attempt, isCancelled, h1, h2, hcur,
            hw1, hw2, hw3, hnc, initialStates, subTestRun,
            getUpdatedMessage, doneHas100, runSingleTest, hloc, hci]
        case pos =>
        rcases htc : s.iperfTcpEnabled <;> rcases hud : s.iperfUdpEnabled <;>
          simp [runSurveyTests, attempt, isCancelled, h1, h2, hcur,
            hw1, hw2, hw3, hnc, initialStates, subTestRun,
            getUpdatedMessage, doneHas100, runSingleTest, hloc, hci, htc, hud]
      · by_cases hloc : s.iperfServerAdrs = "localhost"
        · simp [runSurveyTests, attempt, isCancelled, h1, h2, hcur,
            hw1, hw2, hw3, hnc, initialStates, subTestRun,
            getUpdatedMessage, doneHas100, runSingleTest, hloc]
        by_cases hci : env.checkIperf = ""
        case neg =>
          simp [runSurveyTests, attempt, isCancelled, h1, h2, hcur,
            hw1, hw2, hw3, hnc, initialStates, subTestRun,
            getUpdatedMessage, doneHas100, runSingleTest, hloc, hci]
        case pos =>
        rcases htc : s.iperfTcpEnabled <;> rcases hud : s.iperfUdpEnabled <;>
          simp [runSurveyTests, attempt, isCancelled, h1, h2, hcur,
            hw1, hw2, hw3, hnc, initialStates, subTestRun,
            getUpdatedMessage, doneHas100, runSingleTest, hloc, hci, htc, hud]
      · by_cases hloc : s.iperfServerAdrs = "localhost"
        · simp [runSurveyTests, attempt, isCancelled, h1, h2, hcur,
            hw1, hw2, hw3, hnc, initialStates, subTestRun,
            getUpdatedMessage, doneHas100, runSingleTest, hloc]
        by_cases hci : env.checkIperf = ""
        case neg =>
          simp [runSurveyTests, attempt, isCancelled, h1, h2, hcur,
            hw1, hw2, hw3, hnc, initialStates, subTestRun,
            getUpdatedMessage, doneHas100, runSingleTest, hloc, hci]
        case pos =>
        rcases htc : s.iperfTcpEnabled <;> rcases hud : s.iperfUdpEnabled <;>
          simp [runSurveyTests, attempt, isCancelled, h1, h2, hcur,
            hw1, hw2, hw3, hnc, initialStates, subTestRun,
            getUpdatedMessage, doneHas100, runSingleTest, hloc, hci, htc, hud]
      · by_cases hloc : s.iperfServerAdrs = "localhost"
        · simp [runSurveyTests, attempt, isCancelled, h1, h2, hcur,
            hw1, hw2, hw3, hnc, initialStates, subTestRun,
            getUpdatedMessage, doneHas100, runSingleTest, hloc]
        by_cases hci : env.checkIperf = ""
        case neg =>
          simp [runSurveyTests, attempt, isCancelled, h1, h2, hcur,
            hw1, hw2, hw3, hnc, initialStates, subTestRun,
            getUpdatedMessage, doneHas100, runSingleTest, hloc, hci]
        case pos =>
        rcases htc : s.iperfTcpEnabled <;> rcases hud : s.iperfUdpEnabled <;>
          simp [runSurveyTests, attempt, isCancelled, h1, h2, hcur,
            hw1, hw2, hw3, hnc, initialStates, subTestRun,
            getUpdatedMessage, doneHas100, runSingleTest, hloc, hci, htc, hud]
      · by_cases hloc : s.iperfServerAdrs = "localhost"
        · simp [runSurveyTests, attempt, isCancelled, h1, h2, hcur,
            hw1, hw2, hw3, hnc, initialStates, subTestRun,
            getUpdatedMessage, doneHas100, runSingleTest, hloc]
        by_cases hci : env.checkIperf = ""
        case neg =>
          simp [runSurveyTests, attempt, isCancelled, h1, h2, hcur,
            hw1, hw2, hw3, hnc, initialStates, subTestRun,
            getUpdatedMessage, doneHas100, runSingleTest, hloc, hci]
        case pos =>
        rcases htc : s.iperfTcpEnabled <;> rcases hud : s.iperfUdpEnabled <;>
          simp [runSurveyTests, attempt, isCancelled, h1, h2, hcur,
            hw1, hw2, hw3, hnc, initialStates, subTestRun,
            getUpdatedMessage, doneHas100, runSingleTest, hloc, hci, htc, hud]
      · have hc0 : isCancelled env.cancelFrom 0 = false := by
          simp only [hnc, isCancelled, decide_eq_false_iff_not]; omega
        have hc1 : isCancelled env.cancelFrom 1 = false := by
          simp only [hnc, isCancelled, decide_eq_false_iff_not]; omega
        have hc2 : isCancelled env.cancelFrom 2 = false := by
          simp only [hnc, isCancelled, decide_eq_false_iff_not]; omega
        have hc3 : isCancelled env.cancelFrom 3 = false := by
          simp only [hnc, isCancelled, decide_eq_false_iff_not]; omega
        have hc4 : isCancelled env.cancelFrom 4 = false := by
          simp only [hnc, isCancelled, decide_eq_false_iff_not]; omega
        by_cases hloc : s.iperfServerAdrs = "localhost"
        · by_cases hv : validateWifiDataConsistency w1 w3 <;>
            simp [runSurveyTests, attempt, h1, h2, hcur, hw1, hw2, hw3,
              hc0, hc1, hc2, hc3, hc4, hloc, hv, initialStates, subTestRun,
              getUpdatedMessage, doneHas100, runSingleTest]
        by_cases hci : env.checkIperf = ""
        case neg =>
          by_cases hv : validateWifiDataConsistency w1 w3 <;>
            simp [runSurveyTests, attempt, h1, h2, hcur, hw1, hw2, hw3,
              hc0, hc1, hc2, hc3, hc4, hloc, hci, hv, initialStates,
              subTestRun, getUpdatedMessage, doneHas100, runSingleTest]
        case pos =>
        by_cases hv : validateWifiDataConsistency w1 w3 <;>
          rcases htc : s.iperfTcpEnabled <;> rcases hud : s.iperfUdpEnabled <;>
          simp [runSurveyTests, attempt, h1, h2, hcur, hw1, hw2, hw3,
            hc0, hc1, hc2, hc3, hc4, hloc, hci, htc, hud, hv,
            initialStates, subTestRun, getUpdatedMessage, doneHas100,
            runSingleTest]
  · -- equal-share grid values are all published in an uncancelled run
    intro hnc k hk
    by_cases hloc : s.iperfServerAdrs = "localhost"
    · simp [tcpEffective, udpEffective, performIperfTest, hloc] at hk
    by_cases hci : env.checkIperf = ""
    case neg =>
      simp [tcpEffective, udpEffective, performIperfTest, hloc, hci] at hk
    case pos =>
    rcases htc : s.iperfTcpEnabled <;> rcases hud : s.iperfUdpEnabled <;>
      simp [tcpEffective, udpEffective, performIperfTest, hloc, hci,
        htc, hud] at hk ⊢
    · interval_cases k <;>
        by_cases hv : validateWifiDataConsistency w1 w3 <;>
        simp [runSurveyTests, attempt, isCancelled, h1, h2, hcur,
          hw1, hw2, hw3, hnc, initialStates, subTestRun_ds,
          progressValues_append, progressValues_cons_msg,
          progressValues_cons_subtest, progressValues_subTestRun,
          progressValues_nil, hloc, hci, htc, hud, hv] <;>
        norm_num [tickProgress, round_eq]
    · interval_cases k <;>
        by_cases hv : validateWifiDataConsistency w1 w3 <;>
        simp [runSurveyTests, attempt, isCancelled, h1, h2, hcur,
          hw1, hw2, hw3, hnc, initialStates, subTestRun_ds,
          progressValues_append, progressValues_cons_msg,
          progressValues_cons_subtest, progressValues_subTestRun,
          progressValues_nil, hloc, hci, htc, hud, hv] <;>
        norm_num [tickProgress, round_eq]
    · interval_cases k <;>
        by_cases hv : validateWifiDataConsistency w1 w3 <;>
        simp [runSurveyTests, attempt, isCancelled, h1, h2, hcur,
          hw1, hw2, hw3, hnc, initialStates, subTestRun_ds,
          progressValues_append, progressValues_cons_msg,
          progressValues_cons_subtest, progressValues_subTestRun,
          progressValues_nil, hloc, hci, htc, hud, hv] <;>
        norm_num [tickProgress, round_eq]
  · -- zero effective units: straight to 100 after sampling
    intro hnc hT
    by_cases hloc : s.iperfServerAdrs = "localhost"
    · by_cases hv : validateWifiDataConsistency w1 w3 <;>
        simp [runSurveyTests, attempt, isCancelled, h1, h2, hcur,
          hw1, hw2, hw3, hnc, initialStates, subTestRun_ds,
          progressValues_append, progressValues_cons_msg,
          progressValues_cons_subtest, progressValues_subTestRun,
          progressValues_nil, hloc, hv]
    by_cases hci : env.checkIperf = ""
    case neg =>
      by_cases hv : validateWifiDataConsistency w1 w3 <;>
        simp [runSurveyTests, attempt, isCancelled, h1, h2, hcur,
          hw1, hw2, hw3, hnc, initialStates, subTestRun_ds,
          progressValues_append, progressValues_cons_msg,
          progressValues_cons_subtest, progressValues_subTestRun,
          progressValues_nil, hloc, hci, hv]
    case pos =>
    rcases htc : s.iperfTcpEnabled <;> rcases hud : s.iperfUdpEnabled <;>
      simp [tcpEffective, udpEffective, performIperfTest, hloc, hci,
        htc, hud] at hT
    by_cases hv : validateWifiDataConsistency w1 w3 <;>
      simp [runSurveyTests, attempt, isCancelled, h1, h2, hcur,
          hw1, hw2, hw3, hnc, initialStates, subTestRun_ds,
          progressValues_append, progressValues_cons_msg,
          progressValues_cons_subtest, progressValues_subTestRun,
          progressValues_nil, hloc, hci, htc, hud, hv]

/-- Settings exercising the degraded zero-units path: both protocol
flags on, but the localhost sentinel disables bandwidth testing. -/
def localhostSettings : PartialHeatmapSettings :=
  { iperfServerAdrs := "localhost", testDuration := 1
    iperfTcpEnabled := true, iperfUdpEnabled := true }

/-- Witness for C7: the benign environment (both protocols effectively
enabled, monotone tick schedules) is monotone with done at 100, and the
localhost-degraded run (zero effective units despite both flags on)
publishes exactly the 0-to-100 jump after sampling. -/
theorem runSurveyTests_progress_accounting_witness :
    List.Chain' (· ≤ ·)
      (progressValues (runSurveyTests sampleToMbps samplePercentageToRssi
        sampleSettings baseEnv).events) ∧
    doneHas100 (runSurveyTests sampleToMbps samplePercentageToRssi
      sampleSettings baseEnv).events = true ∧
    progressValues (runSurveyTests sampleToMbps samplePercentageToRssi
      localhostSettings baseEnv).events = [0, 0, 0, 0, 100, 100] :=
  ⟨(runSurveyTests_progress_accounting sampleToMbps samplePercentageToRssi
      sampleSettings baseEnv sampleNetwork sampleNetwork
      { sampleNetwork with signalStrength := 44 }
      { sampleNetwork with signalStrength := 46 }
      rfl (by decide) rfl rfl rfl
      (by simp [baseEnv]) (by simp [baseEnv]) (by simp [baseEnv])
      (by simp [baseEnv])).1,
   (runSurveyTests_progress_accounting sampleToMbps samplePercentageToRssi
      sampleSettings baseEnv sampleNetwork sampleNetwork
      { sampleNetwork with signalStrength := 44 }
      { sampleNetwork with signalStrength := 46 }
      rfl (by decide) rfl rfl rfl
      (by simp [baseEnv]) (by simp [baseEnv]) (by simp [baseEnv])
      (by simp [baseEnv])).2.1,
   (runSurveyTests_progress_accounting sampleToMbps samplePercentageToRssi
      localhostSettings baseEnv sampleNetwork sampleNetwork
      { sampleNetwork with signalStrength := 44 }
      { sampleNetwork with signalStrength := 46 }
      rfl (by decide) rfl rfl rfl
      (by simp [baseEnv]) (by simp [baseEnv]) (by simp [baseEnv])
      (by simp [baseEnv])).2.2.2 rfl
      (by simp [tcpEffective, udpEffective, performIperfTest,
        localhostSettings])⟩

end WifiHeatmapper
